import Mathlib

/-!
Verification development for the CBT chatbot research system.

The Python sources are shallowly embedded here:
  * `src/utils/response_processor.py`  — response validation and quality analysis
  * `src/config/personalities.py`      — personality-conditioned feedback
  * `src/models/chatbot.py`            — the dialogue state machine
  * `src/app_simple.py`                — the embedded flow catalog `CBT_FLOWS` and
                                         question styling
  * `src/utils/journal_generator.py`   — journal rendering
  * `src/config/settings.py`           — `CBT_CONFIG`

Conventions of the embedding:
  * Python `str` is Lean `String`; character-level work happens on `List Char`
    (`String.data`).  Lengths (`len`) are code-point counts, matching Python.
  * Python floats are embedded as `ℚ`; every arithmetic expression that the
    claims mention is exact at the relevant ranges (comments at the use sites).
  * `str.lower`, whitespace and the regex classes `\w`, `\s` are modelled at
    ASCII precision (the repository's pattern lists and messages are ASCII).
  * Python exceptions are modelled with `Option`/explicit result constructors.
-/

/-- ASCII model of the whitespace class used by Python `str.split`, `str.strip`
and the regex class `\s` (space, tab, newline, vertical tab, form feed,
carriage return). -/
def pyIsSpace (c : Char) : Bool :=
  c == ' ' || c == '\t' || c == '\n' || c == '\x0b' || c == '\x0c' || c == '\r'

/-- ASCII model of Python `str.lower`, character by character. -/
def asciiLower (c : Char) : Char :=
  match c with
  | 'A' => 'a' | 'B' => 'b' | 'C' => 'c' | 'D' => 'd' | 'E' => 'e' | 'F' => 'f'
  | 'G' => 'g' | 'H' => 'h' | 'I' => 'i' | 'J' => 'j' | 'K' => 'k' | 'L' => 'l'
  | 'M' => 'm' | 'N' => 'n' | 'O' => 'o' | 'P' => 'p' | 'Q' => 'q' | 'R' => 'r'
  | 'S' => 's' | 'T' => 't' | 'U' => 'u' | 'V' => 'v' | 'W' => 'w' | 'X' => 'x'
  | 'Y' => 'y' | 'Z' => 'z'
  | other => other

/-- Python `text.lower()` on the character list. -/
def lowerList (l : List Char) : List Char := l.map asciiLower

/-- Python `str.strip()`: drop whitespace from both ends. -/
def pyStrip (l : List Char) : List Char :=
  ((l.dropWhile pyIsSpace).reverse.dropWhile pyIsSpace).reverse

/-- Accumulator worker for `pySplit` (`cur` holds the current word, reversed). -/
def wordsAux (cur : List Char) : List Char → List (List Char)
  | [] => if cur.isEmpty then [] else [cur.reverse]
  | c :: cs =>
    if pyIsSpace c then
      if cur.isEmpty then wordsAux [] cs else cur.reverse :: wordsAux [] cs
    else wordsAux (c :: cur) cs

/-- Python `str.split()` with no separator: maximal runs of non-whitespace,
leading/trailing/repeated whitespace ignored. -/
def pySplit (l : List Char) : List (List Char) := wordsAux [] l

/-- ASCII model of the regex class `\w`: letters, digits, underscore. -/
def isWordChar (c : Char) : Bool := c.isAlphanum || c == '_'

/-- A regex word boundary `\b` holds after a word character when the rest of
the input starts with a non-word character (or is empty). -/
def afterBoundary : List Char → Bool
  | [] => true
  | c :: _ => !isWordChar c

/-- Python substring test `needle in hay`. -/
def containsSub (needle : List Char) : List Char → Bool
  | [] => needle.isPrefixOf []
  | c :: cs => needle.isPrefixOf (c :: cs) || containsSub needle cs

/-- Consume `\s+` (one or more whitespace characters, greedily).  All callers
continue with a literal starting in a non-space character, so the greedy
consumption is exact regex semantics here. -/
def consumeSpaces1 (l : List Char) : Option (List Char) :=
  match l with
  | [] => none
  | c :: _ => if pyIsSpace c then some (l.dropWhile pyIsSpace) else none

/-- Generic scan of `re.search`: try a position matcher at every suffix,
tracking whether the previous character was a word character (for `\b`). -/
def searchAt (patAt : Bool → List Char → Bool) : Bool → List Char → Bool
  | prevW, [] => patAt prevW []
  | prevW, c :: cs => patAt prevW (c :: cs) || searchAt patAt (isWordChar c) cs

/-- Matcher body shared by the `\bWORD\s+WORD\b` patterns from
`ResponseProcessor._check_appropriate_content`. -/
def wordGapWordAt (firstAlts : List String) (second : String) (prevW : Bool)
    (s : List Char) : Bool :=
  !prevW && firstAlts.any (fun w =>
    w.data.isPrefixOf s &&
      (match consumeSpaces1 (s.drop w.data.length) with
       | none => false
       | some r2 => second.data.isPrefixOf r2 && afterBoundary (r2.drop second.data.length)))

/-- Regex `\b(kill|die|death|suicide|harm)\s+myself\b` (src/utils/response_processor.py:101). -/
def re_search_self_harm (s : List Char) : Bool :=
  searchAt (wordGapWordAt ["kill", "die", "death", "suicide", "harm"] "myself") false s

/-- Regex `\bsuicide\b` (src/utils/response_processor.py:102). -/
def re_search_suicide (s : List Char) : Bool :=
  searchAt (fun prevW t => !prevW && "suicide".data.isPrefixOf t && afterBoundary (t.drop 7))
    false s

/-- Regex `\bharm\s+others\b` (src/utils/response_processor.py:103). -/
def re_search_harm_others (s : List Char) : Bool :=
  searchAt (wordGapWordAt ["harm"] "others") false s

/-- Tail scan for `.*\bthoughts\b`: `.` does not match a newline. -/
def searchThoughtsFrom : Bool → List Char → Bool
  | _, [] => false
  | prevW, c :: cs =>
    (!prevW && "thoughts".data.isPrefixOf (c :: cs) && afterBoundary ((c :: cs).drop 8)) ||
      (!(c == '\n') && searchThoughtsFrom (isWordChar c) cs)

/-- Regex `\bviolent\b.*\bthoughts\b` (src/utils/response_processor.py:104). -/
def re_search_violent_thoughts (s : List Char) : Bool :=
  searchAt
    (fun prevW t =>
      !prevW && "violent".data.isPrefixOf t && afterBoundary (t.drop 7) &&
        searchThoughtsFrom true (t.drop 7))
    false s

/-- Regex `\bsubstance\s+abuse\b` (src/utils/response_processor.py:105). -/
def re_search_substance_abuse (s : List Char) : Bool :=
  searchAt (wordGapWordAt ["substance"] "abuse") false s

/-- The disjunction of the five `inappropriate_patterns`, searched over the
lower-cased response (src/utils/response_processor.py:100-112). -/
def unsafe_content_match (response : List Char) : Bool :=
  let rl := lowerList response
  re_search_self_harm rl || re_search_suicide rl || re_search_harm_others rl ||
    re_search_violent_thoughts rl || re_search_substance_abuse rl

/-- `ResponseProcessor._load_validation_rules` (src/utils/response_processor.py:53-62). -/
structure ValidationRules where
  min_length : Nat
  max_length : Nat
  min_words : Nat
  max_words : Nat
  required_engagement : Bool
  block_inappropriate : Bool

/-- The validation rule constants. -/
def validation_rules : ValidationRules := ⟨10, 2000, 3, 500, true, true⟩

/-- The message returned for every unsafe-content rejection. -/
def inappropriate_message : String :=
  "Your response contains content that requires professional support. Please consider reaching out to a mental health professional or crisis helpline."

/-- `ResponseProcessor._check_appropriate_content` (src/utils/response_processor.py:97-114). -/
def _check_appropriate_content (response : List Char) : Bool × Option String :=
  if unsafe_content_match response then (false, some inappropriate_message) else (true, none)

/-- The `minimal_responses` list (src/utils/response_processor.py:119-122). -/
def minimal_responses : List String :=
  ["yes", "no", "maybe", "idk", "i don't know", "nothing",
   "not sure", "dunno", "nope", "yep", "fine", "ok", "okay"]

/-- `ResponseProcessor._check_engagement_level` (src/utils/response_processor.py:116-133).
The float comparison `len(unique)/len(words) < 0.3` is embedded as the exact
rational comparison `10*unique < 3*total`; both sides agree wherever this
function is reached from `validate_response` (word count is at most 500 there,
so the quotient is never within one double-precision ulp of 0.3 without being
exactly 3/10, where both comparisons are false). -/
def _check_engagement_level (response : List Char) : Bool × Option String :=
  let response_words := pySplit (lowerList response)
  if response_words.length ≤ 2 &&
      response_words.any (fun w => minimal_responses.any (fun m => m.data == w)) then
    (false, some "Please provide a more detailed response to help us understand your experience better.")
  else
    let unique_words := response_words.dedup
    if response_words.length > 5 && 10 * unique_words.length < 3 * response_words.length then
      (false, some "Please provide a more varied response with different thoughts and details.")
    else (true, none)

/-- `ResponseProcessor.validate_response` (src/utils/response_processor.py:64-95).
The `f`-string messages are inlined with the rule constants substituted. -/
def validate_response (response : String) : Bool × Option String :=
  let l := response.data
  if l.isEmpty || (pyStrip l).isEmpty then
    (false, some "Please provide a response to continue.")
  else
    let r := pyStrip l
    if r.length < validation_rules.min_length then
      (false, some "Please provide a more detailed response (at least 10 characters).")
    else if r.length > validation_rules.max_length then
      (false, some "Response is too long. Please keep it under 2000 characters.")
    else
      let word_count := (pySplit r).length
      if word_count < validation_rules.min_words then
        (false, some "Please provide at least 3 words in your response.")
      else if word_count > validation_rules.max_words then
        (false, some "Response is too long. Please keep it under 500 words.")
      else
        let app := _check_appropriate_content r
        if validation_rules.block_inappropriate && !app.1 then (false, app.2)
        else
          let eng := _check_engagement_level r
          if validation_rules.required_engagement && !eng.1 then (false, eng.2)
          else (true, none)

/-- Spec-side verdict names for the validator rules of spec section 4.2, in
their stated order. -/
inductive SpecVerdict where
  | accept
  | rejectEmpty
  | rejectTooShort
  | rejectTooLong
  | rejectTooFewWords
  | rejectTooManyWords
  | rejectUnsafe
  | rejectMinimal
  | rejectLowDiversity
deriving DecidableEq

/-- Spec-side validator, written rule by rule from spec section 4.2: the eight
rules applied in the spec's fixed order, first failure winning.  Rule 7 follows
the spec's wording (the whole lower-cased text is drawn from the closed set of
minimal acknowledgements); rule 8's "unique words" are those of the lower-cased
text, the reading fixed by the code. -/
def validateSpec (text : String) : SpecVerdict :=
  let l := text.data
  if l.isEmpty || (pyStrip l).isEmpty then .rejectEmpty
  else
    let t := pyStrip l
    if t.length < 10 then .rejectTooShort
    else if t.length > 2000 then .rejectTooLong
    else if (pySplit t).length < 3 then .rejectTooFewWords
    else if (pySplit t).length > 500 then .rejectTooManyWords
    else if unsafe_content_match t then .rejectUnsafe
    else if (pySplit (lowerList t)).length ≤ 2 &&
        minimal_responses.any (fun m => m.data == lowerList t) then .rejectMinimal
    else if (pySplit (lowerList t)).length > 5 &&
        10 * ((pySplit (lowerList t)).dedup).length < 3 * (pySplit (lowerList t)).length then
      .rejectLowDiversity
    else .accept

/-- The concrete result `validate_response` produces for each spec verdict. -/
def specMessage : SpecVerdict → Bool × Option String
  | .accept => (true, none)
  | .rejectEmpty => (false, some "Please provide a response to continue.")
  | .rejectTooShort =>
      (false, some "Please provide a more detailed response (at least 10 characters).")
  | .rejectTooLong => (false, some "Response is too long. Please keep it under 2000 characters.")
  | .rejectTooFewWords => (false, some "Please provide at least 3 words in your response.")
  | .rejectTooManyWords => (false, some "Response is too long. Please keep it under 500 words.")
  | .rejectUnsafe => (false, some inappropriate_message)
  | .rejectMinimal =>
      (false, some "Please provide a more detailed response to help us understand your experience better.")
  | .rejectLowDiversity =>
      (false, some "Please provide a more varied response with different thoughts and details.")

lemma pyIsSpace_asciiLower (c : Char) : pyIsSpace (asciiLower c) = pyIsSpace c := by
  unfold asciiLower
  split <;> rfl

lemma wordsAux_length_map (f : Char → Char) (hf : ∀ c, pyIsSpace (f c) = pyIsSpace c) :
    ∀ (l : List Char) (cur : List Char),
      (wordsAux (cur.map f) (l.map f)).length = (wordsAux cur l).length := by
  intro l
  induction l with
  | nil =>
    intro cur
    cases cur <;> simp [wordsAux]
  | cons c cs ih =>
    intro cur
    have h0 := ih []
    simp only [List.map_nil] at h0
    by_cases hc : pyIsSpace c = true
    · cases cur <;> simp [wordsAux, hf c, hc, h0]
    · have h1 := ih (c :: cur)
      simp only [List.map_cons] at h1
      simp [wordsAux, hf c, hc, h1]

/-- Lower-casing does not change the number of whitespace-separated words. -/
lemma pySplit_lowerList_length (r : List Char) :
    (pySplit (lowerList r)).length = (pySplit r).length := by
  have := wordsAux_length_map asciiLower pyIsSpace_asciiLower r []
  simpa [pySplit, lowerList] using this

lemma validate_response_eq_spec (s : String) :
    validate_response s = specMessage (validateSpec s) := by
  have e1 : validation_rules.min_length = 10 := rfl
  have e2 : validation_rules.max_length = 2000 := rfl
  have e3 : validation_rules.min_words = 3 := rfl
  have e4 : validation_rules.max_words = 500 := rfl
  have e5 : validation_rules.block_inappropriate = true := rfl
  have e6 : validation_rules.required_engagement = true := rfl
  unfold validate_response validateSpec
  rw [e1, e2, e3, e4, e5, e6]
  by_cases h1 : (s.data.isEmpty || (pyStrip s.data).isEmpty) = true
  · rw [if_pos h1, if_pos h1]; rfl
  · rw [if_neg h1, if_neg h1]
    by_cases h2 : (pyStrip s.data).length < 10
    · rw [if_pos h2, if_pos h2]; rfl
    · rw [if_neg h2, if_neg h2]
      by_cases h3 : (pyStrip s.data).length > 2000
      · rw [if_pos h3, if_pos h3]; rfl
      · rw [if_neg h3, if_neg h3]
        by_cases h4 : (pySplit (pyStrip s.data)).length < 3
        · rw [if_pos h4, if_pos h4]; rfl
        · rw [if_neg h4, if_neg h4]
          by_cases h5 : (pySplit (pyStrip s.data)).length > 500
          · rw [if_pos h5, if_pos h5]; rfl
          · rw [if_neg h5, if_neg h5]
            by_cases h6 : unsafe_content_match (pyStrip s.data) = true
            · simp [_check_appropriate_content, h6, specMessage]
            · have hwc : 3 ≤ (pySplit (pyStrip s.data)).length := Nat.not_lt.mp h4
              have hlow : (pySplit (lowerList (pyStrip s.data))).length
                  = (pySplit (pyStrip s.data)).length :=
                pySplit_lowerList_length (pyStrip s.data)
              have hgt2 : ¬((pySplit (lowerList (pyStrip s.data))).length ≤ 2) := by omega
              by_cases h8 : 5 < (pySplit (lowerList (pyStrip s.data))).length ∧
                  10 * (pySplit (lowerList (pyStrip s.data))).dedup.length <
                    3 * (pySplit (lowerList (pyStrip s.data))).length
              · simp [_check_appropriate_content, _check_engagement_level, h6, hgt2,
                  h8, specMessage]
              · simp [_check_appropriate_content, _check_engagement_level, h6, hgt2,
                  h8, specMessage]

lemma validateSpec_ne_rejectMinimal (s : String) :
    validateSpec s ≠ SpecVerdict.rejectMinimal := by
  simp only [validateSpec]
  have hlow := pySplit_lowerList_length (pyStrip s.data)
  split_ifs with h1 h2 h3 h4 h5 h6 h7 h8 <;> try simp
  · -- the minimal-reply branch: it needs at most 2 words, but rule 4 already
    -- guaranteed at least 3
    simp only [Bool.and_eq_true, decide_eq_true_eq] at h7
    rcases h7 with ⟨hle, -⟩
    omega

/-- C3: `validate_response` applies the spec's eight rules in the spec's fixed
order with the first failure winning (empty, too short, too long, too few
words, too many words, unsafe content, minimal acknowledgement, low lexical
diversity), and accepts otherwise.  The function is a pure function of the
text: `validateSpec` is the rule-by-rule spec-side validator and `specMessage`
maps each verdict to the concrete result the code returns. -/
theorem C3_validator_rule_order (s : String) :
    validate_response s = specMessage (validateSpec s) :=
  validate_response_eq_spec s

/-- C9: the minimal-acknowledgement rejection of `_check_engagement_level` is
unreachable from `validate_response`: no input text ever produces the
"more detailed response to help us understand" rejection, because the earlier
word-count rule already rejects every text of fewer than 3 words while the
minimal-reply check requires at most 2 words. -/
theorem C9_minimal_reply_unreachable (s : String) :
    decide (validate_response s =
      (false, some "Please provide a more detailed response to help us understand your experience better.")) = false := by
  rw [decide_eq_false_iff_not]
  intro hcontra
  rw [validate_response_eq_spec] at hcontra
  have hne := validateSpec_ne_rejectMinimal s
  cases hv : validateSpec s <;> rw [hv] at hcontra <;>
    simp [specMessage, inappropriate_message] at hcontra
  exact hne hv

-- Sanity checks mirroring spec section 8's examples.
example : validate_response "ok" =
    (false, some "Please provide a more detailed response (at least 10 characters).") := by decide
example : (validate_response "I felt really anxious when my boss scheduled a surprise meeting this morning").1 = true := by decide
example : validate_response "word word word word word word word word" =
    (false, some "Please provide a more varied response with different thoughts and details.") := by decide
example : (validate_response "Lately I have wanted to harm myself every night").2 =
    some inappropriate_message := by decide
example : validate_response "" = (false, some "Please provide a response to continue.") := by decide

/-- A single flow step: `{id, text, category}` (spec section 3, and the
question dictionaries of `CBT_FLOWS`). -/
structure Step where
  id : String
  text : String
  category : String
deriving DecidableEq

/-- One personality's template bundle from
`PersonalityResponseGenerator._load_personality_templates`
(src/config/personalities.py:15-72).  The `characteristics` sub-dictionary is
dead data for every code path modelled here and is omitted. -/
structure PersonalityTemplate where
  response_patterns : List String
  welcome_message : String
  closing_message : String

/-- The `neutral` entry of `_load_personality_templates` (src/config/personalities.py:18-34). -/
def neutral_template : PersonalityTemplate :=
  ⟨["Thank you for sharing that. {context} Let's continue exploring this together.",
    "I appreciate you taking the time to reflect on this. Your response helps us understand the situation better.",
    "That's helpful information. {insight} Let's move forward with the next aspect.",
    "Thank you for being open about your experience. This kind of reflection can be valuable for understanding patterns.",
    "I understand. {category_context} Let's continue examining this."],
   "Hello, I'm here to guide you through a CBT journaling session. This process will help you explore your thoughts, feelings, and responses to recent experiences. Please select the area you'd like to focus on today.",
   "Thank you for taking time for your mental health today. Remember, self-reflection is a continuous process that can help you develop better coping strategies."⟩

/-- The `conscientiousness` entry of `_load_personality_templates`
(src/config/personalities.py:35-52). -/
def conscientiousness_template : PersonalityTemplate :=
  ⟨["Excellent work providing that detailed information. Your thorough response demonstrates genuine commitment to this self-examination process. Let's systematically proceed to analyze the next component.",
    "Outstanding reflection. I particularly appreciate the specificity of your response - this level of detail will significantly enhance our analysis. Now, let's methodically examine the next aspect.",
    "Thank you for that comprehensive response. Your careful consideration of this question shows dedication to understanding these patterns thoroughly. We'll now progress systematically to the next element.",
    "Superb insight. The thoroughness of your reflection indicates you're taking this process seriously, which is absolutely crucial for meaningful progress. Let's continue with our structured approach.",
    "Excellent self-awareness demonstrated in your response. This methodical exploration of your experience will provide valuable insights for developing effective coping strategies. Proceeding to our next structured component."],
   "Welcome to this comprehensive CBT journaling session. I'm here to guide you through a systematic, evidence-based process that will help you thoroughly analyze your thoughts, emotions, and behavioral patterns. This structured approach will provide you with valuable insights and actionable strategies. Please select your primary area of focus so we can begin this methodical exploration.",
   "Congratulations on completing this comprehensive self-examination process. Your dedication to this systematic approach demonstrates excellent commitment to your mental health and personal development. Remember, consistent application of these evidence-based techniques will yield the most significant long-term benefits for your wellbeing."⟩

/-- The `extraversion` entry of `_load_personality_templates`
(src/config/personalities.py:53-71).  The emoji bytes appear in the source
file as the mojibake sequences transcribed here. -/
def extraversion_template : PersonalityTemplate :=
  ⟨["Wow, thank you so much for sharing that with me! I really appreciate your openness - it takes courage to dive into these feelings. You're doing such great work here! Let's keep this momentum going together!",
    "That's fantastic that you're exploring this so openly! I'm genuinely excited to help you work through this. Your willingness to share is really inspiring! Let's dive into the next part - I think you're going to find this really helpful!",
    "Amazing reflection! I love how thoughtful you're being about this whole process. Seriously, you should be proud of yourself for taking the time to do this work! Ready for the next step? I think this is going to be really insightful!",
    "This is so great - you're really connecting with the process! I can tell you're putting genuine effort into understanding yourself better, and that's absolutely wonderful! Let's keep up this fantastic energy and explore the next aspect together!",
    "I'm really impressed by your honesty and self-awareness! It's exciting to see someone engage so fully with this process. You're building such valuable insights about yourself! Let's continue this journey together - I'm here to support you every step of the way!"],
   "Hey there! ðŸ˜Š I'm so excited to work with you today on this CBT journaling adventure! This is going to be such a valuable experience for understanding yourself better and building some awesome coping strategies. I'm here to guide you through every step, and I genuinely can't wait to see what insights we discover together! So, what area would you like to dive into today? Let's make this session amazing!",
   "Wow, what an incredible session we just had together! I'm genuinely so proud of you for putting in this effort and being so open about your experiences. You've shown real courage and commitment to your mental health today! Remember, every small step counts, and you're building something really meaningful here. Keep up the fantastic work, and remember - I'm always here whenever you need support! You've got this! ðŸŒŸ"⟩

/-- `PersonalityResponseGenerator.personality_templates` (src/config/personalities.py:12-72). -/
def personality_templates : List (String × PersonalityTemplate) :=
  [("neutral", neutral_template),
   ("conscientiousness", conscientiousness_template),
   ("extraversion", extraversion_template)]

/-- The `contexts` table of `_get_category_context` (src/config/personalities.py:98-132),
`neutral` entry. -/
def category_contexts_neutral : List (String × String) :=
  [("Situation/Trigger", "Understanding the trigger is an important first step."),
   ("Thoughts", "Identifying these thoughts is an important part of the process."),
   ("Emotions", "Recognizing your emotional responses helps us understand your experience."),
   ("Behaviors", "Understanding your behavioral responses provides insight into coping patterns."),
   ("Physical Reactions", "Physical symptoms often reflect our mental state."),
   ("Cognitive Distortions", "Recognizing thinking patterns is valuable for developing awareness."),
   ("Examine Evidence", "This evaluation process helps develop balanced perspectives."),
   ("Balanced Thought", "Creating alternative thoughts is a key CBT skill."),
   ("Action Planning", "Planning concrete actions helps translate insights into practice.")]

/-- The `contexts` table, `conscientiousness` entry (src/config/personalities.py:110-120). -/
def category_contexts_conscientiousness : List (String × String) :=
  [("Situation/Trigger", "Systematic analysis of triggers provides crucial foundational data for our comprehensive examination."),
   ("Thoughts", "Methodical identification of cognitive patterns enables thorough analysis of your thought processes."),
   ("Emotions", "Precise emotional assessment is essential for comprehensive understanding of your affective responses."),
   ("Behaviors", "Detailed behavioral analysis provides critical insights into your response patterns and coping mechanisms."),
   ("Physical Reactions", "Systematic documentation of physiological responses enhances our comprehensive assessment."),
   ("Cognitive Distortions", "Rigorous examination of thinking patterns is fundamental to evidence-based cognitive restructuring."),
   ("Examine Evidence", "This systematic evaluation process is essential for developing well-founded, balanced perspectives."),
   ("Balanced Thought", "Structured cognitive reframing represents a core evidence-based therapeutic technique."),
   ("Action Planning", "Strategic action planning ensures systematic implementation of therapeutic insights.")]

/-- The `contexts` table, `extraversion` entry (src/config/personalities.py:121-131). -/
def category_contexts_extraversion : List (String × String) :=
  [("Situation/Trigger", "I love that you're diving right into understanding what sparked these feelings!"),
   ("Thoughts", "This is so important - getting clear on these thoughts is going to be super helpful!"),
   ("Emotions", "You're doing amazing work exploring these emotions - this is really valuable stuff!"),
   ("Behaviors", "I'm so glad we're looking at this together - understanding your responses is incredibly insightful!"),
   ("Physical Reactions", "This mind-body connection stuff is fascinating, and you're really getting it!"),
   ("Cognitive Distortions", "You're being so brave examining these thinking patterns - this is powerful work!"),
   ("Examine Evidence", "I love this part - we're like detectives uncovering the real story here!"),
   ("Balanced Thought", "This is so exciting - you're building new, healthier ways of thinking!"),
   ("Action Planning", "Yes! I'm thrilled we're moving into action mode - this is where the magic happens!")]

/-- The personality-indexed `contexts` dictionary of `_get_category_context`. -/
def category_contexts : List (String × List (String × String)) :=
  [("neutral", category_contexts_neutral),
   ("conscientiousness", category_contexts_conscientiousness),
   ("extraversion", category_contexts_extraversion)]

/-- `PersonalityResponseGenerator._get_category_context` (src/config/personalities.py:95-134):
`contexts.get(personality, contexts['neutral']).get(category, '')`. -/
def _get_category_context (category personality : String) : String :=
  (((category_contexts.lookup personality).getD category_contexts_neutral).lookup
    category).getD ""

/-- The `insights` table of `_get_category_specific_insight`
(src/config/personalities.py:139-158), `neutral` entry. -/
def category_insights_neutral : List (String × String) :=
  [("Thoughts", "Identifying these thoughts helps us understand your mental patterns."),
   ("Emotions", "Understanding emotional responses is key to the CBT process."),
   ("Behaviors", "Behavioral patterns often reflect our internal states."),
   ("Physical Reactions", "The mind-body connection is an important aspect to explore.")]

/-- The `insights` table, `conscientiousness` entry. -/
def category_insights_conscientiousness : List (String × String) :=
  [("Thoughts", "Systematic thought identification enables comprehensive cognitive analysis."),
   ("Emotions", "Methodical emotional assessment provides essential diagnostic clarity."),
   ("Behaviors", "Structured behavioral analysis yields crucial therapeutic insights."),
   ("Physical Reactions", "Systematic physiological assessment enhances diagnostic precision.")]

/-- The `insights` table, `extraversion` entry. -/
def category_insights_extraversion : List (String × String) :=
  [("Thoughts", "Getting clear on thoughts is so empowering!"),
   ("Emotions", "Understanding emotions is incredibly valuable for personal growth!"),
   ("Behaviors", "Exploring behaviors together is such meaningful work!"),
   ("Physical Reactions", "The mind-body connection is absolutely fascinating!")]

/-- The personality-indexed `insights` dictionary of `_get_category_specific_insight`. -/
def category_insights : List (String × List (String × String)) :=
  [("neutral", category_insights_neutral),
   ("conscientiousness", category_insights_conscientiousness),
   ("extraversion", category_insights_extraversion)]

/-- `PersonalityResponseGenerator._get_category_specific_insight`
(src/config/personalities.py:136-160). -/
def _get_category_specific_insight (category personality : String) : String :=
  (((category_insights.lookup personality).getD category_insights_neutral).lookup
    category).getD ""

/-- `PersonalityResponseGenerator._get_step_insight` (src/config/personalities.py:162-185). -/
def _get_step_insight (step : Nat) (personality : String) : String :=
  if personality = "conscientiousness" then
    if step < 5 then "This foundational information will inform our subsequent systematic analysis."
    else if step < 10 then "We're building a comprehensive understanding through methodical examination."
    else "This systematic approach ensures thorough therapeutic progress."
  else if personality = "extraversion" then
    if step < 5 then "We're off to such a great start with this exploration!"
    else if step < 10 then "I'm loving how this is unfolding - you're doing fantastic work!"
    else "Look at all this amazing progress we're making together!"
  else
    if step < 5 then "This information helps build our understanding."
    else if step < 10 then "We're making good progress in this exploration."
    else "This reflection process is helping develop important insights."

/-- Python `base_response.format(context=..., category_context=..., insight=...)`
modelled as sequential replacement of the three named slots.  Every substituted
value comes from the fixed tables above and contains no brace, so sequential
replacement coincides with simultaneous field substitution. -/
def formatSlots (t context category_context insight : String) : String :=
  ((t.replace "{context}" context).replace "{category_context}" category_context).replace
    "{insight}" insight

/-- `PersonalityResponseGenerator.generate_response` (src/config/personalities.py:74-93).
`user_response` is received and ignored, exactly as in the source. -/
def generate_response (personality : String) (question : Step) (user_response : String)
    (step : Nat) : String :=
  let template := (personality_templates.lookup personality).getD neutral_template
  let patterns := template.response_patterns
  let base_response := patterns.getD (step % patterns.length) ""
  let context := _get_category_context question.category personality
  let category_context := _get_category_specific_insight question.category personality
  let insight := _get_step_insight step personality
  formatSlots base_response context category_context insight

/-- `PersonalityResponseGenerator.get_welcome_message` (src/config/personalities.py:187-189).
The direct dictionary index raises `KeyError` for an unknown personality;
`none` models that exception. -/
def get_welcome_message (personality : String) : Option String :=
  (personality_templates.lookup personality).map (fun t => t.welcome_message)

/-- `PersonalityResponseGenerator.get_closing_message` (src/config/personalities.py:191-193). -/
def get_closing_message (personality : String) : Option String :=
  (personality_templates.lookup personality).map (fun t => t.closing_message)

/-- Spec-side phrase bank selection of section 4.4: one closed bank per
personality, selected by exhaustive matching. -/
def specPhraseBank (personality : String) : List String :=
  if personality = "conscientiousness" then conscientiousness_template.response_patterns
  else if personality = "extraversion" then extraversion_template.response_patterns
  else neutral_template.response_patterns

/-- Spec-side `composeFeedback(personality, category, stepIndex)` written from
spec section 4.4: select the base template at `stepIndex mod bankSize` from the
personality's phrase bank (deterministic round-robin), then substitute the
`context`, `categoryContext` and `insight` slots from the lookup tables (empty
string when unmapped), the insight bucketed at stepIndex < 5 / < 10 / else. -/
def composeFeedbackSpec (personality category : String) (stepIndex : Nat) : String :=
  let bank := specPhraseBank personality
  let base := bank.getD (stepIndex % bank.length) ""
  formatSlots base (_get_category_context category personality)
    (_get_category_specific_insight category personality)
    (_get_step_insight stepIndex personality)

/-- C6: `generate_response` composes feedback deterministically from
(personality, question category, step index) alone — it equals the spec-side
`composeFeedback`, which selects the base template at `stepIndex mod bankSize`
from the personality's phrase bank and substitutes the three named slots.  In
particular two calls with the same arguments return the identical string, and
the user's answer text and the question's identity beyond its category never
influence the result. -/
theorem C6_composeFeedback_mod_selection (personality : String)
    (h : personality ∈ ["neutral", "conscientiousness", "extraversion"])
    (question : Step) (user_response : String) (stepIndex : Nat) :
    generate_response personality question user_response stepIndex =
      composeFeedbackSpec personality question.category stepIndex := by
  simp only [List.mem_cons, List.not_mem_nil, or_false] at h
  rcases h with rfl | rfl | rfl <;> rfl

/-- Witness for C6 at a concrete personality, question and step. -/
theorem C6_witness :
    "conscientiousness" ∈ ["neutral", "conscientiousness", "extraversion"] ∧
      generate_response "conscientiousness"
          ⟨"situation", "What happened recently that triggered your stress?",
            "Situation/Trigger"⟩ "my boss assigned extra work" 7 =
        composeFeedbackSpec "conscientiousness" "Situation/Trigger" 7 :=
  ⟨by decide,
   C6_composeFeedback_mod_selection "conscientiousness" (by decide)
     ⟨"situation", "What happened recently that triggered your stress?",
       "Situation/Trigger"⟩ "my boss assigned extra work" 7⟩

/-- The `intros` list of the extraversion branch of
`CBTChatbotApp._style_question_with_personality` (src/app_simple.py:748-754). -/
def extraversion_intros : List String :=
  ["Awesome, let's keep the ball rolling!",
   "Great job! Let's jump into the next part.",
   "Okay, let's get to the next exciting bit!",
   "This is so insightful! Next up:"]

/-- The `intros` list of the conscientiousness branch (src/app_simple.py:757-763). -/
def conscientiousness_intros : List String :=
  ["Proceeding to the next logical step:",
   "For our next point of analysis:",
   "To continue our systematic review:",
   "The next item on our agenda is:"]

/-- `CBTChatbotApp._style_question_with_personality` (src/app_simple.py:746-767).
`random.choice(intros)` is modelled by an explicit draw `choice` reduced
modulo the list length: every possible random outcome is
`intros[choice % len(intros)]` for some `choice`. -/
def _style_question_with_personality (personality question_text : String)
    (choice : Nat) : String :=
  if personality = "extraversion" then
    (extraversion_intros.getD (choice % extraversion_intros.length) "") ++ " " ++ question_text
  else if personality = "conscientiousness" then
    (conscientiousness_intros.getD (choice % conscientiousness_intros.length) "")
      ++ " " ++ question_text
  else question_text

lemma getD_mod_mem {α : Type} (l : List α) (k : Nat) (d : α) (h : l ≠ []) :
    l.getD (k % l.length) d ∈ l := by
  have hlen : k % l.length < l.length := Nat.mod_lt _ (List.length_pos.mpr h)
  rw [List.getD_eq_getElem l d hlen]
  exact List.getElem_mem hlen

/-- C7: for every question text and every random draw, the neutral personality
returns the question unmodified; extraversion and conscientiousness return the
question prefixed by one of their four lead-in phrases; and for every
personality the result ends with the literal question text. -/
theorem C7_question_styling (question_text : String) (choice : Nat) :
    _style_question_with_personality "neutral" question_text choice = question_text ∧
    extraversion_intros.length = 4 ∧
    _style_question_with_personality "extraversion" question_text choice ∈
      extraversion_intros.map (fun i => i ++ " " ++ question_text) ∧
    conscientiousness_intros.length = 4 ∧
    _style_question_with_personality "conscientiousness" question_text choice ∈
      conscientiousness_intros.map (fun i => i ++ " " ++ question_text) ∧
    ∀ personality : String,
      question_text.data <:+
        (_style_question_with_personality personality question_text choice).data := by
  refine ⟨rfl, rfl, ?_, rfl, ?_, ?_⟩
  · have hmem : extraversion_intros.getD (choice % extraversion_intros.length) "" ∈
        extraversion_intros := getD_mod_mem _ _ _ (by decide)
    have : _style_question_with_personality "extraversion" question_text choice =
        (extraversion_intros.getD (choice % extraversion_intros.length) "")
          ++ " " ++ question_text := rfl
    rw [this]
    exact List.mem_map_of_mem (fun i => i ++ " " ++ question_text) hmem
  · have hmem : conscientiousness_intros.getD (choice % conscientiousness_intros.length) "" ∈
        conscientiousness_intros := getD_mod_mem _ _ _ (by decide)
    have : _style_question_with_personality "conscientiousness" question_text choice =
        (conscientiousness_intros.getD (choice % conscientiousness_intros.length) "")
          ++ " " ++ question_text := rfl
    rw [this]
    exact List.mem_map_of_mem (fun i => i ++ " " ++ question_text) hmem
  · intro personality
    unfold _style_question_with_personality
    split_ifs with h1 h2
    · rw [String.data_append]
      exact List.suffix_append _ _
    · rw [String.data_append]
      exact List.suffix_append _ _
    · exact List.suffix_refl _

example :
    "X?".data.isSuffixOf
      (_style_question_with_personality "extraversion" "X?" 2).data = true := by decide

/-- The `emotion_words` list of `_assess_emotional_depth`
(src/utils/response_processor.py:170-178). -/
def emotion_words : List String :=
  ["feel", "felt", "emotion", "emotional", "mood", "feelings",
   "anxious", "nervous", "worried", "scared", "afraid",
   "sad", "depressed", "hopeless", "empty", "numb",
   "angry", "frustrated", "irritated", "annoyed",
   "happy", "joyful", "content", "peaceful", "calm",
   "excited", "enthusiastic", "motivated", "hopeful",
   "overwhelmed", "stressed", "tense", "relaxed"]

/-- The `personal_emotion_patterns` list (src/utils/response_processor.py:183-186);
each is a regex-free literal, so `re.search` is substring search. -/
def personal_emotion_patterns : List String :=
  ["i feel", "i felt", "i am", "i'm", "i was", "made me feel", "it feels", "feeling"]

/-- Count how many of the given literals occur in the text (`1` per literal,
presence only), as Python `sum(1 for w in ws if w in text)` and equally
`sum(1 for p in ps if re.search(p, text))` for literal patterns. -/
def countContains (ws : List String) (s : List Char) : Nat :=
  ws.countP (fun w => containsSub w.data s)

/-- `ResponseProcessor._assess_emotional_depth` (src/utils/response_processor.py:167-194). -/
def _assess_emotional_depth (response : String) : ℚ :=
  let response_lower := lowerList response.data
  let emotion_count := countContains emotion_words response_lower
  let personal_count := countContains personal_emotion_patterns response_lower
  let word_count := (pySplit response.data).length
  min 100 (((emotion_count + personal_count * 2 : ℚ)) / max ((word_count : ℚ) / 10) 1 * 100)

/-- The `specificity_indicators` list (src/utils/response_processor.py:199-204). -/
def specificity_indicators : List String :=
  ["when", "where", "how", "why", "what", "who",
   "because", "since", "due to", "as a result",
   "for example", "such as", "like", "including",
   "specifically", "particularly", "especially"]

/-- Regex `\b\d+\b` (first entry of `concrete_patterns`,
src/utils/response_processor.py:211). -/
def re_search_number (s : List Char) : Bool :=
  searchAt
    (fun prevW t =>
      match t with
      | [] => false
      | c :: _ => !prevW && c.isDigit && afterBoundary (t.dropWhile Char.isDigit))
    false s

/-- Regex `\b(w1|w2|...)\b` for a list of plain words (the day/time/place
alternations of `concrete_patterns`, src/utils/response_processor.py:212-214). -/
def re_search_word_alt (ws : List String) (s : List Char) : Bool :=
  searchAt
    (fun prevW t =>
      !prevW && ws.any (fun w => w.data.isPrefixOf t && afterBoundary (t.drop w.data.length)))
    false s

/-- `ResponseProcessor._assess_specificity` (src/utils/response_processor.py:196-223). -/
def _assess_specificity (response : String) : ℚ :=
  let response_lower := lowerList response.data
  let specificity_count := countContains specificity_indicators response_lower
  let concrete_count :=
    (if re_search_number response_lower then 1 else 0) +
    (if re_search_word_alt
        ["yesterday", "today", "tomorrow", "monday", "tuesday", "wednesday",
         "thursday", "friday", "saturday", "sunday"] response_lower then 1 else 0) +
    (if re_search_word_alt ["morning", "afternoon", "evening", "night"] response_lower
      then 1 else 0) +
    (if re_search_word_alt ["home", "work", "school", "office", "gym", "store"] response_lower
      then 1 else 0)
  let word_count := (pySplit response.data).length
  min 100 (((specificity_count + concrete_count : ℚ)) / max ((word_count : ℚ) / 15) 1 * 100)

/-- The `insight_patterns` list (src/utils/response_processor.py:228-235);
every entry is a regex-free literal. -/
def insight_patterns : List String :=
  ["i realize", "i understand", "i see", "i notice",
   "i recognize", "i learned", "i discovered",
   "pattern", "connection", "relationship",
   "this shows", "this means", "this suggests",
   "because", "since", "as a result", "therefore",
   "leads to", "causes", "triggers", "affects"]

/-- Continue a `A.*B` match after `A`: find `B` with no newline consumed by
`.*` in between. -/
def dotStarFrom (b : List Char) : List Char → Bool
  | [] => b.isPrefixOf []
  | c :: cs => b.isPrefixOf (c :: cs) || (!(c == '\n') && dotStarFrom b cs)

/-- Regex `A.*B` for literals `A`, `B` (`.` matches anything but a newline). -/
def dotStarSearch (a b : List Char) : List Char → Bool
  | [] => a.isPrefixOf [] && dotStarFrom b []
  | c :: cs =>
    (a.isPrefixOf (c :: cs) && dotStarFrom b ((c :: cs).drop a.length)) ||
      dotStarSearch a b cs

/-- The `causal_patterns` count of `_assess_insight_level`
(src/utils/response_processor.py:241-247): `if.*then`, `when.*i`,
`because.*i` and three literals. -/
def causal_count_of (response_lower : List Char) : Nat :=
  (if dotStarSearch "if".data "then".data response_lower then 1 else 0) +
  (if dotStarSearch "when".data "i".data response_lower then 1 else 0) +
  (if dotStarSearch "because".data "i".data response_lower then 1 else 0) +
  countContains ["this makes me", "which leads to", "resulting in"] response_lower

/-- `ResponseProcessor._assess_insight_level` (src/utils/response_processor.py:225-252). -/
def _assess_insight_level (response : String) : ℚ :=
  let response_lower := lowerList response.data
  let insight_count := countContains insight_patterns response_lower
  let causal_count := causal_count_of response_lower
  let word_count := (pySplit response.data).length
  min 100 (((insight_count + causal_count * 2 : ℚ)) / max ((word_count : ℚ) / 20) 1 * 100)

/-- The `category_keywords` table of `_assess_category_relevance`
(src/utils/response_processor.py:257-267). -/
def category_keywords : List (String × List String) :=
  [("Situation/Trigger", ["situation", "event", "happened", "occurred", "trigger", "when"]),
   ("Thoughts", ["thought", "think", "believe", "mind", "ideas", "opinion"]),
   ("Emotions", ["feel", "emotion", "mood", "emotional", "feelings"]),
   ("Behaviors", ["did", "action", "behavior", "react", "response", "avoid"]),
   ("Physical Reactions", ["body", "physical", "symptoms", "tension", "heart", "breathing"]),
   ("Cognitive Distortions", ["thinking", "pattern", "assumption", "belief"]),
   ("Examine Evidence", ["evidence", "proof", "support", "fact", "true", "reality"]),
   ("Balanced Thought", ["balanced", "realistic", "alternative", "different", "helpful"]),
   ("Action Planning", ["plan", "action", "step", "do", "will", "going to"])]

/-- `ResponseProcessor._assess_category_relevance` (src/utils/response_processor.py:254-278). -/
def _assess_category_relevance (response : String) (category : String) : ℚ :=
  let keywords := (category_keywords.lookup category).getD []
  if keywords.isEmpty then 50
  else
    let response_lower := lowerList response.data
    let relevance_count := keywords.countP (fun k => containsSub k.data response_lower)
    min 100 ((relevance_count : ℚ) / (keywords.length : ℚ) * 100)

/-- The sentence-ender class `[.!?]`. -/
def isSentEnd (c : Char) : Bool := c == '.' || c == '!' || c == '?'

/-- Worker for `re.split(r'[.!?]+', text)`: `skipping` is true while consuming
a run of enders just after a split point; empty pieces are kept, as `re.split`
keeps them. -/
def sentAux (skipping : Bool) (cur : List Char) : List Char → List (List Char)
  | [] => [cur.reverse]
  | c :: cs =>
    if isSentEnd c then
      if skipping then sentAux true [] cs else cur.reverse :: sentAux true [] cs
    else sentAux false (c :: cur) cs

/-- `re.split(r'[.!?]+', text)`: the pieces between maximal runs of sentence
enders. -/
def re_split_sentences (l : List Char) : List (List Char) := sentAux false [] l

/-- Maximal runs of a character class (for `re.findall(r'\b\w+\b', text)`,
whose matches are exactly the maximal runs of `\w`). -/
def runsAux (p : Char → Bool) (cur : List Char) : List Char → List (List Char)
  | [] => if cur.isEmpty then [] else [cur.reverse]
  | c :: cs =>
    if p c then runsAux p (c :: cur) cs
    else if cur.isEmpty then runsAux p [] cs else cur.reverse :: runsAux p [] cs

/-- The vowels of `_count_syllables`, including `y`. -/
def isSylVowel (c : Char) : Bool :=
  c == 'a' || c == 'e' || c == 'i' || c == 'o' || c == 'u' || c == 'y'

/-- Count vowel-group starts (a vowel whose predecessor is not a vowel). -/
def vowelGroupsAux (prevV : Bool) : List Char → Nat
  | [] => 0
  | c :: cs =>
    (if isSylVowel c && !prevV then 1 else 0) + vowelGroupsAux (isSylVowel c) cs

/-- Per-word syllable estimate of `_count_syllables`
(src/utils/response_processor.py:299-313): vowel groups, silent trailing `e`
correction, at least 1. -/
def syllablesOfWord (w : List Char) : Nat :=
  let count := vowelGroupsAux false w
  let count := if w.getLast? == some 'e' && count > 1 then count - 1 else count
  max 1 count

/-- `ResponseProcessor._count_syllables` (src/utils/response_processor.py:294-315). -/
def _count_syllables (text : String) : Nat :=
  ((runsAux isWordChar [] (lowerList text.data)).map syllablesOfWord).sum

/-- `ResponseProcessor._calculate_readability` (src/utils/response_processor.py:280-292):
the Flesch-style score clamped to `[0, 100]`, and `0` when there are no
sentences or no words. -/
def _calculate_readability (response : String) : ℚ :=
  let sentences := (re_split_sentences response.data).length - 1
  let words := (pySplit response.data).length
  let syllables := _count_syllables response
  if sentences = 0 ∨ words = 0 then 0
  else
    max 0 (min 100
      (206.835 - 1.015 * ((words : ℚ) / (sentences : ℚ))
        - 84.6 * ((syllables : ℚ) / (words : ℚ))))

/-- Count the non-overlapping matches of `\b` + literal + `\b`
(`len(re.findall(...))` in `_count_therapeutic_indicators`); after a match the
scan resumes past it.  The literal is never empty in the indicator tables. -/
def findAllBoundary (w : List Char) : Bool → List Char → Nat
  | _, [] => 0
  | prevW, c :: cs =>
    if w ≠ [] ∧ prevW = false ∧ w.isPrefixOf (c :: cs) = true ∧
        afterBoundary ((c :: cs).drop w.length) = true then
      1 + findAllBoundary w (isWordChar (w.getLastD 'x')) ((c :: cs).drop w.length)
    else findAllBoundary w (isWordChar c) cs
termination_by _ l => l.length
decreasing_by
  · rename_i h
    have hw : w ≠ [] := h.1
    have : 1 ≤ w.length := List.length_pos.mpr hw
    simp [List.length_drop]
    omega
  · simp

/-- The `therapeutic_indicators` tables
(src/utils/response_processor.py:19-51). -/
def therapeutic_indicators : List (String × List String) :=
  [("self_awareness",
    ["i realize", "i notice", "i understand", "i recognize", "i see",
     "pattern", "connection", "relationship", "impact", "effect",
     "trigger", "cause", "lead to", "result in"]),
   ("emotional_processing",
    ["feel", "felt", "emotion", "emotional", "mood", "feelings",
     "anxious", "sad", "angry", "frustrated", "overwhelmed",
     "hopeful", "calm", "peaceful", "content", "relieved"]),
   ("cognitive_restructuring",
    ["thought", "think", "believe", "assumption", "expectation",
     "realistic", "balanced", "alternative", "different way",
     "perspective", "viewpoint", "evidence", "proof"]),
   ("behavioral_insight",
    ["behavior", "action", "reaction", "response", "habit",
     "avoid", "escape", "withdraw", "engage", "participate",
     "cope", "manage", "handle", "deal with"]),
   ("future_orientation",
    ["will", "plan", "goal", "hope", "expect", "next time",
     "future", "tomorrow", "later", "going to", "intend"]),
   ("self_compassion",
    ["kind to myself", "forgive myself", "understanding",
     "gentle", "patient", "compassionate", "accepting",
     "human", "normal", "understandable"])]

/-- `ResponseProcessor._count_therapeutic_indicators`
(src/utils/response_processor.py:154-165). -/
def _count_therapeutic_indicators (response : String) : List (String × Nat) :=
  therapeutic_indicators.map (fun entry =>
    (entry.1,
     (entry.2.map (fun ind => findAllBoundary ind.data false (lowerList response.data))).sum))

/-- The analysis record built by `analyze_response_quality`
(src/utils/response_processor.py:135-152); spec section 3's
`ResponseAnalysis`. -/
structure ResponseAnalysis where
  word_count : Nat
  character_count : Nat
  sentence_count : Nat
  therapeutic_indicators : List (String × Nat)
  emotional_depth : ℚ
  specificity_score : ℚ
  insight_level : ℚ
  category_relevance : ℚ
  readability_score : ℚ
  overall_quality_score : ℚ

/-- `ResponseProcessor._calculate_quality_score`
(src/utils/response_processor.py:317-338).  The weights are
`{word_count: 0.1, emotional_depth: 0.25, specificity_score: 0.2,
insight_level: 0.25, category_relevance: 0.2}` and
`word_score = min(100, max(0, (word_count - 5) / 95 * 100))`. -/
def _calculate_quality_score (word_count : Nat) (emotional_depth specificity_score
    insight_level category_relevance : ℚ) : ℚ :=
  let word_score := min 100 (max 0 (((word_count : ℚ) - 5) / 95 * 100))
  0.1 * word_score + 0.25 * emotional_depth + 0.2 * specificity_score +
    0.25 * insight_level + 0.2 * category_relevance

/-- `ResponseProcessor.analyze_response_quality` (src/utils/response_processor.py:135-152). -/
def analyze_response_quality (response : String) (question_category : String) :
    ResponseAnalysis :=
  let emotional_depth := _assess_emotional_depth response
  let specificity_score := _assess_specificity response
  let insight_level := _assess_insight_level response
  let category_relevance := _assess_category_relevance response question_category
  ⟨(pySplit response.data).length,
   response.data.length,
   (re_split_sentences response.data).length - 1,
   _count_therapeutic_indicators response,
   emotional_depth,
   specificity_score,
   insight_level,
   category_relevance,
   _calculate_readability response,
   _calculate_quality_score (pySplit response.data).length emotional_depth
     specificity_score insight_level category_relevance⟩

lemma min100_bounds {x : ℚ} (hx : 0 ≤ x) : 0 ≤ min 100 x ∧ min 100 x ≤ 100 :=
  ⟨le_min (by norm_num) hx, min_le_left _ _⟩

lemma clamp_bounds (y : ℚ) : 0 ≤ min 100 (max 0 y) ∧ min 100 (max 0 y) ≤ 100 :=
  ⟨le_min (by norm_num) (le_max_left _ _), min_le_left _ _⟩

lemma emotional_depth_mem (r : String) :
    0 ≤ _assess_emotional_depth r ∧ _assess_emotional_depth r ≤ 100 := by
  unfold _assess_emotional_depth
  apply min100_bounds
  have hd : (0 : ℚ) ≤ max (((pySplit r.data).length : ℚ) / 10) 1 := by positivity
  positivity

lemma specificity_mem (r : String) :
    0 ≤ _assess_specificity r ∧ _assess_specificity r ≤ 100 := by
  unfold _assess_specificity
  apply min100_bounds
  positivity

lemma insight_mem (r : String) :
    0 ≤ _assess_insight_level r ∧ _assess_insight_level r ≤ 100 := by
  unfold _assess_insight_level
  apply min100_bounds
  positivity

lemma category_relevance_mem (r c : String) :
    0 ≤ _assess_category_relevance r c ∧ _assess_category_relevance r c ≤ 100 := by
  simp only [_assess_category_relevance]
  split_ifs
  · norm_num
  · apply min100_bounds
    positivity

lemma readability_mem (r : String) :
    0 ≤ _calculate_readability r ∧ _calculate_readability r ≤ 100 := by
  simp only [_calculate_readability]
  split_ifs
  · norm_num
  · exact ⟨le_max_left _ _, max_le (by norm_num) (min_le_left _ _)⟩

/-- C8: the overall quality score equals the spec's weighted sum
`wordCountComponent*0.10 + emotionalDepth*0.25 + specificityScore*0.20 +
insightLevel*0.25 + categoryRelevance*0.20` with
`wordCountComponent = clamp((wordCount - 5)/95*100, 0, 100)`, and every
per-dimension score as well as the overall score lies in `[0, 100]`. -/
theorem C8_overall_quality_weighted_sum (response category : String) :
    (analyze_response_quality response category).overall_quality_score =
        min 100 (max 0 ((((analyze_response_quality response category).word_count : ℚ) - 5)
            / 95 * 100)) * 0.1 +
          (analyze_response_quality response category).emotional_depth * 0.25 +
          (analyze_response_quality response category).specificity_score * 0.2 +
          (analyze_response_quality response category).insight_level * 0.25 +
          (analyze_response_quality response category).category_relevance * 0.2 ∧
      0 ≤ (analyze_response_quality response category).emotional_depth ∧
        (analyze_response_quality response category).emotional_depth ≤ 100 ∧
      0 ≤ (analyze_response_quality response category).specificity_score ∧
        (analyze_response_quality response category).specificity_score ≤ 100 ∧
      0 ≤ (analyze_response_quality response category).insight_level ∧
        (analyze_response_quality response category).insight_level ≤ 100 ∧
      0 ≤ (analyze_response_quality response category).category_relevance ∧
        (analyze_response_quality response category).category_relevance ≤ 100 ∧
      0 ≤ (analyze_response_quality response category).readability_score ∧
        (analyze_response_quality response category).readability_score ≤ 100 ∧
      0 ≤ (analyze_response_quality response category).overall_quality_score ∧
        (analyze_response_quality response category).overall_quality_score ≤ 100 := by
  simp only [analyze_response_quality]
  obtain ⟨hed1, hed2⟩ := emotional_depth_mem response
  obtain ⟨hsp1, hsp2⟩ := specificity_mem response
  obtain ⟨hin1, hin2⟩ := insight_mem response
  obtain ⟨hcr1, hcr2⟩ := category_relevance_mem response category
  obtain ⟨hrd1, hrd2⟩ := readability_mem response
  obtain ⟨hws1, hws2⟩ :=
    clamp_bounds ((((pySplit response.data).length : ℚ) - 5) / 95 * 100)
  refine ⟨?_, hed1, hed2, hsp1, hsp2, hin1, hin2, hcr1, hcr2, hrd1, hrd2, ?_, ?_⟩
  · simp only [_calculate_quality_score]
    ring
  · simp only [_calculate_quality_score]
    linarith
  · simp only [_calculate_quality_score]
    linarith

lemma sentAux_no_enders :
    ∀ (l : List Char), (∀ c ∈ l, isSentEnd c = false) →
      ∀ cur, (sentAux false cur l).length = 1 := by
  intro l
  induction l with
  | nil => intro _ cur; simp [sentAux]
  | cons c cs ih =>
    intro h cur
    have hc : isSentEnd c = false := h c (List.mem_cons_self c cs)
    simp only [sentAux, hc, Bool.false_eq_true, if_false]
    exact ih (fun x hx => h x (List.mem_cons_of_mem c hx)) (c :: cur)

/-- C10: for a non-empty text containing none of `.`, `!`, `?`, the analysis's
sentence count (the number of `[.!?]+`-split pieces minus one) is `0`, and the
readability score is therefore exactly `0`. -/
theorem C10_readability_zero_without_enders (response category : String)
    (hne : response.data ≠ [])
    (h : ∀ c ∈ response.data, isSentEnd c = false) :
    (analyze_response_quality response category).sentence_count = 0 ∧
      (analyze_response_quality response category).readability_score = 0 := by
  have hlen : (re_split_sentences response.data).length = 1 := sentAux_no_enders _ h []
  constructor
  · show (re_split_sentences response.data).length - 1 = 0
    omega
  · show _calculate_readability response = 0
    unfold _calculate_readability
    rw [if_pos]
    left
    omega

/-- Witness for C10 at the concrete ender-free text `"hello world"`. -/
theorem C10_witness :
    (analyze_response_quality "hello world" "General").sentence_count = 0 ∧
      (analyze_response_quality "hello world" "General").readability_score = 0 :=
  C10_readability_zero_without_enders "hello world" "General" (by decide) (by decide)
/-- The `stress` flow of `CBT_FLOWS` (src/app_simple.py), 35 steps. -/
def stress_flow : List Step :=
  [⟨"situation", "What happened recently that triggered your stress?", "Situation/Trigger"⟩,
    ⟨"specific_event", "Was there a specific event, deadline, interaction, or change?", "Situation/Trigger"⟩,
    ⟨"personal_stress", "What made this situation feel stressful to you personally?", "Situation/Trigger"⟩,
    ⟨"similar_before", "Have you faced a similar situation before? What happened then?", "Situation/Trigger"⟩,
    ⟨"thoughts_moment", "What went through your mind at the moment you started feeling stressed?", "Thoughts"⟩,
    ⟨"hot_thought", "What was the most distressing or believable thought? (Your \"hot thought\")", "Thoughts"⟩,
    ⟨"emotions", "What emotions did you feel? (e.g., anxious, overwhelmed, frustrated, helpless)", "Mood"⟩,
    ⟨"mood_rating", "Rate each mood from 0–100%.", "Mood"⟩,
    ⟨"behaviors", "What did you do (or avoid doing) as a result of feeling stressed?", "Behaviors"⟩,
    ⟨"avoidance", "Did you procrastinate, shut down, lash out, overwork, or escape?", "Behaviors"⟩,
    ⟨"physical", "What physical symptoms did you notice? (e.g., muscle tension, headache, fatigue, nausea, racing heart)", "Physical Reactions"⟩,
    ⟨"assumptions", "What assumptions were you making about yourself, others, or the situation?", "Automatic Thoughts"⟩,
    ⟨"distortions", "Are you using any of these common thinking traps? (Catastrophizing, All-or-Nothing, Mind Reading, Overgeneralization, Shoulds/Musts)", "Cognitive Distortions"⟩,
    ⟨"evidence_for", "What is the factual evidence that supports this thought?", "Examine Evidence"⟩,
    ⟨"evidence_against", "What is the evidence that challenges or contradicts this thought?", "Examine Evidence"⟩,
    ⟨"friend_advice", "What would you say to a friend if they were thinking the same thing in this situation?", "Examine Evidence"⟩,
    ⟨"balanced_thought", "Based on the evidence, what's a more realistic or helpful way of viewing this situation?", "Balanced Thought"⟩,
    ⟨"believability", "How believable is this new thought to you right now? (0–100%)", "Balanced Thought"⟩,
    ⟨"emotional_change", "What would change for you emotionally or behaviorally if you believed this new thought more often?", "Balanced Thought"⟩,
    ⟨"small_action", "What is one small action you could take that reflects this new thought?", "Balanced Thought"⟩,
    ⟨"deeper_belief", "Is there a deeper belief making this harder to cope with? (e.g., \"If I don't achieve, I'm worthless\")", "Deeper Beliefs"⟩,
    ⟨"belief_origin", "Where do you think this belief came from—family, school, culture, or past experiences?", "Deeper Beliefs"⟩,
    ⟨"belief_influence", "How has this belief influenced your life over time?", "Deeper Beliefs"⟩,
    ⟨"belief_meaning_self", "If this belief were true, what would it mean about you?", "Deeper Beliefs"⟩,
    ⟨"belief_meaning_others", "What would it mean about others?", "Deeper Beliefs"⟩,
    ⟨"belief_meaning_world", "What would it mean about the world or your future?", "Deeper Beliefs"⟩,
    ⟨"helpful_action", "What's one small, specific action you can take this week to reduce your stress?", "Action Planning"⟩,
    ⟨"action_steps", "List a few manageable steps to help you follow through.", "Action Planning"⟩,
    ⟨"control_parts", "What parts of this situation are within your control, and what parts are outside of your control?", "Action Planning"⟩,
    ⟨"past_strategies", "What strengths or past strategies have helped you manage similar stress before?", "Action Planning"⟩,
    ⟨"stress_meaning", "Is your stress telling you something meaningful—like a personal value or unmet need?", "Action Planning"⟩,
    ⟨"belief_review", "Review the negative belief you uncovered. Is this a belief you've noticed coming up often in your life?", "Healthier Beliefs"⟩,
    ⟨"belief_outcome", "When you challenged this belief, did the outcome match your prediction? Did anything positive or unexpected happen?", "Healthier Beliefs"⟩,
    ⟨"new_belief", "What new belief would you like to adopt about yourself, others, or life?", "Healthier Beliefs"⟩,
    ⟨"belief_evidence", "Write down 10 small pieces of evidence that support this new belief.", "Healthier Beliefs"⟩]

/-- The `anxiety` flow of `CBT_FLOWS` (src/app_simple.py), 31 steps. -/
def anxiety_flow : List Step :=
  [⟨"situation", "What recent situation or event made you feel anxious?", "Situation/Trigger"⟩,
    ⟨"anticipation", "Was there something you were anticipating, avoiding, or fearing?", "Situation/Trigger"⟩,
    ⟨"thoughts", "What thoughts were running through your mind at that time?", "Thoughts"⟩,
    ⟨"hot_thought", "What was the most distressing or believable thought? (\"hot thought\")", "Thoughts"⟩,
    ⟨"fear", "What were you afraid might happen?", "Thoughts"⟩,
    ⟨"emotions", "What emotions did you feel? (e.g., nervous, scared, panicky, uneasy)", "Emotions"⟩,
    ⟨"emotion_intensity", "Rate the intensity of each emotion from 0–100%.", "Emotions"⟩,
    ⟨"behaviors", "What did you do—or avoid doing—because of the anxiety?", "Behaviors"⟩,
    ⟨"safety_behaviors", "Did you engage in safety behaviors (e.g., checking, avoiding, escaping, seeking reassurance)?", "Behaviors"⟩,
    ⟨"physical", "What physical symptoms did you notice? (e.g., tight chest, rapid heartbeat, sweating, dizziness, nausea)", "Physical Reactions"⟩,
    ⟨"predictions", "What did you think would go wrong? What's the worst-case scenario your mind predicted?", "Anxious Predictions"⟩,
    ⟨"thinking_traps", "Are you experiencing thinking patterns like catastrophizing, fortune telling, mind reading, overgeneralizing, intolerance of uncertainty, or shoulds/musts?", "Thinking Traps"⟩,
    ⟨"coping_strategies", "What do you usually do to cope with anxiety (e.g., avoid, seek reassurance, prepare excessively)?", "Safety Behaviors"⟩,
    ⟨"strategy_effectiveness", "Do these strategies reduce anxiety in the long run—or maintain it?", "Safety Behaviors"⟩,
    ⟨"evidence_for", "What is the actual evidence that supports your anxious thought or prediction?", "Examine Evidence"⟩,
    ⟨"evidence_against", "What is the evidence that contradicts it or offers another explanation?", "Examine Evidence"⟩,
    ⟨"friend_perspective", "If a friend had this thought, what would you say to help them gain perspective?", "Examine Evidence"⟩,
    ⟨"balanced_thought", "What's a more balanced way to think about this situation?", "Balanced Thought"⟩,
    ⟨"belief_rating", "On a scale of 0–100%, how much do you believe this new thought?", "Balanced Thought"⟩,
    ⟨"avoidance", "Is there something you've been avoiding due to fear?", "Facing Fears"⟩,
    ⟨"small_step", "What is one small step you could take to face this fear gradually?", "Facing Fears"⟩,
    ⟨"coping_strategy", "What calming strategy might help you in similar situations? (e.g., breathing, grounding, mindfulness)", "Coping Strategy"⟩,
    ⟨"different_response", "What could you do differently next time to feel more in control?", "Coping Strategy"⟩,
    ⟨"deeper_belief", "Is there a deeper belief behind your anxiety? (e.g., \"If I'm not in control, something bad will happen\")", "Underlying Beliefs"⟩,
    ⟨"belief_origin", "Where might this belief come from—past experiences, upbringing, messages from others?", "Underlying Beliefs"⟩,
    ⟨"belief_impact", "How has this belief shaped your reactions and decisions over time?", "Underlying Beliefs"⟩,
    ⟨"new_belief", "What is a new, empowering belief you'd like to hold? (e.g., \"Uncertainty is uncomfortable but tolerable\")", "New Beliefs"⟩,
    ⟨"supporting_evidence", "List 10 small experiences or facts from your life that support this new belief.", "New Beliefs"⟩,
    ⟨"life_change", "What would change in your life if you believed this more often?", "New Beliefs"⟩,
    ⟨"key_learning", "What's one thing you learned from this reflection that you want to remember?", "Progress"⟩,
    ⟨"weekly_action", "What can you do this week to reinforce your progress?", "Progress"⟩]

/-- The `lowMood` flow of `CBT_FLOWS` (src/app_simple.py), 30 steps. -/
def lowMood_flow : List Step :=
  [⟨"trigger", "What situation, interaction, or thought triggered your low mood recently?", "Situation/Trigger"⟩,
    ⟨"familiarity", "Was this a familiar or recurring type of situation for you?", "Situation/Trigger"⟩,
    ⟨"thoughts", "What was going through your mind at that moment?", "Thoughts"⟩,
    ⟨"hot_thought", "What was the most painful or convincing thought? (\"hot thought\")", "Thoughts"⟩,
    ⟨"meaning", "What did that thought mean about you, your life, or your future?", "Thoughts"⟩,
    ⟨"emotions", "What emotions did you feel? (e.g., sad, hopeless, empty, guilty, numb)", "Moods"⟩,
    ⟨"mood_rating", "Rate each mood from 0–100%.", "Moods"⟩,
    ⟨"behaviors", "What did you do—or avoid doing—because you felt this way?", "Behaviors"⟩,
    ⟨"withdrawal", "Did you withdraw, isolate, stop doing enjoyable or necessary activities?", "Behaviors"⟩,
    ⟨"physical", "What physical symptoms did you notice? (e.g., fatigue, heaviness, sleep or appetite changes, slowed movement)", "Physical Reactions"⟩,
    ⟨"negative_beliefs", "What were you telling yourself about your worth, future, or abilities? (e.g., \"I'm a failure,\" \"Nothing will change\")", "Core Negative Beliefs"⟩,
    ⟨"thinking_errors", "Were you making thinking errors like all-or-nothing thinking, mental filter, overgeneralization, labeling, or hopelessness?", "Thinking Errors"⟩,
    ⟨"evidence_for", "What is the factual evidence that supports this thought?", "Examine Evidence"⟩,
    ⟨"evidence_against", "What evidence contradicts it or offers a different view?", "Examine Evidence"⟩,
    ⟨"friend_advice", "If a friend said this about themselves, what would you say to them?", "Examine Evidence"⟩,
    ⟨"balanced_perspective", "Based on the evidence, what's a more balanced or constructive way to view the situation or yourself?", "Balanced Perspective"⟩,
    ⟨"belief_strength", "How much do you believe this new thought (0–100%)?", "Balanced Perspective"⟩,
    ⟨"recent_activities", "What activities (if any) did you do today or recently?", "Activity Review"⟩,
    ⟨"positive_activities", "Which activities gave you even a small sense of pleasure, accomplishment, or connection?", "Activity Review"⟩,
    ⟨"tomorrow_activity", "What is one small, meaningful activity you could do tomorrow that may improve your mood?", "Behavioral Activation"⟩,
    ⟨"obstacles", "What obstacles might make it hard to follow through—and how could you handle them?", "Behavioral Activation"⟩,
    ⟨"deep_belief", "What belief do you hold about yourself that may be contributing to your mood? (e.g., \"I'm not good enough\")", "Deep-Seated Beliefs"⟩,
    ⟨"belief_source", "Where do you think that belief came from—family, experiences, rejection, failure?", "Deep-Seated Beliefs"⟩,
    ⟨"belief_impact", "How has this belief impacted your life and relationships over time?", "Deep-Seated Beliefs"⟩,
    ⟨"new_belief", "What new belief would you like to hold about yourself? (e.g., \"I have value regardless of what I achieve\")", "Healthier Beliefs"⟩,
    ⟨"evidence_list", "List 10 small pieces of evidence or moments that support this new belief.", "Healthier Beliefs"⟩,
    ⟨"life_difference", "What would be different in your life if you believed this more deeply?", "Healthier Beliefs"⟩,
    ⟨"next_24_hours", "What's one thing you can do in the next 24 hours to support your mental health or lift your mood?", "Small Wins"⟩,
    ⟨"support", "Who or what could support you in doing this?", "Small Wins"⟩,
    ⟨"future_reminder", "What reminder would you like to give yourself next time your mood feels low?", "Future Resilience"⟩]
/-- The flow catalog `CBT_FLOWS` (src/app_simple.py:67-170): the three named
question sequences keyed by condition id. -/
def CBT_FLOWS : List (String × List Step) :=
  [("stress", stress_flow), ("anxiety", anxiety_flow), ("lowMood", lowMood_flow)]

/-- One condition's entry of `CBT_CONFIG` (src/config/settings.py:115-173). -/
structure CBTConditionConfig where
  total_steps : Nat
  core_categories : List String

/-- `CBT_CONFIG` (src/config/settings.py:115-173): the recorded per-condition
step totals and category lists. -/
def CBT_CONFIG : List (String × CBTConditionConfig) :=
  [("stress",
    ⟨28,
     ["Situation/Trigger", "Thoughts", "Mood", "Behaviors", "Physical Reactions",
      "Automatic Thoughts", "Cognitive Distortions", "Examine Evidence",
      "Balanced Thought", "Deeper Beliefs", "Action Planning", "Healthier Beliefs"]⟩),
   ("anxiety",
    ⟨30,
     ["Situation/Trigger", "Thoughts", "Emotions", "Behaviors", "Physical Reactions",
      "Anxious Predictions", "Thinking Traps", "Safety Behaviors", "Examine Evidence",
      "Balanced Thought", "Facing Fears", "Coping Strategy", "Underlying Beliefs",
      "New Beliefs", "Progress"]⟩),
   ("lowMood",
    ⟨29,
     ["Situation/Trigger", "Thoughts", "Moods", "Behaviors", "Physical Reactions",
      "Core Negative Beliefs", "Thinking Errors", "Examine Evidence",
      "Balanced Perspective", "Activity Review", "Behavioral Activation",
      "Deep-Seated Beliefs", "Healthier Beliefs", "Small Wins", "Future Resilience"]⟩)]

/-- C1 counterexample: the catalog's actual step counts are 35/31/30, so none
of the claimed counts 28/30/29 holds of `CBT_FLOWS`. -/
theorem C1_counterexample :
    ((CBT_FLOWS.lookup "stress").getD []).length ≠ 28 ∧
      ((CBT_FLOWS.lookup "anxiety").getD []).length ≠ 30 ∧
      ((CBT_FLOWS.lookup "lowMood").getD []).length ≠ 29 := by decide

/-- C1 (amended): the three flows of `CBT_FLOWS` have 35 (stress), 31
(anxiety) and 30 (lowMood) steps, within each flow every step id is unique,
and it is `CBT_CONFIG`'s recorded `total_steps` that carry the values
28/30/29. -/
theorem C1_flow_sizes_and_unique_ids :
    ((CBT_FLOWS.lookup "stress").getD []).length = 35 ∧
      ((CBT_FLOWS.lookup "anxiety").getD []).length = 31 ∧
      ((CBT_FLOWS.lookup "lowMood").getD []).length = 30 ∧
      (∀ p ∈ CBT_FLOWS, (p.2.map Step.id).Nodup) ∧
      (CBT_CONFIG.lookup "stress").map CBTConditionConfig.total_steps = some 28 ∧
      (CBT_CONFIG.lookup "anxiety").map CBTConditionConfig.total_steps = some 30 ∧
      (CBT_CONFIG.lookup "lowMood").map CBTConditionConfig.total_steps = some 29 := by
  decide

/-- A flow catalog, as `CBTChatbot.cbt_flows` holds one: condition id to
ordered step list.  `chatbot.py` loads its catalog from `data/cbt_flows.json`,
which is not part of the sources here; the state machine is therefore
parametrised by the catalog, and the concrete `CBT_FLOWS` above (the same data
embedded in `src/app_simple.py` "to avoid import issues") instantiates it. -/
abbrev Flows := List (String × List Step)

/-- One entry of `conversation_history` (src/models/chatbot.py): the `type`
field (`"user"` or `"bot"`), the message, and for user entries the
`question_id`.  The wall-clock `timestamp` field is not modelled. -/
structure HistEntry where
  typ : String
  message : String
  question_id : Option String
deriving DecidableEq

/-- The mutable fields of `CBTChatbot` that the dialogue claims concern
(src/models/chatbot.py:26-30).  The `SessionManager` collaborator is external
(its module is not among the sources) and holds no state read back by these
code paths. -/
structure ChatState where
  current_personality : String
  current_condition : Option String
  current_step : Nat
  conversation_history : List HistEntry
  user_responses : List (String × String)
deriving DecidableEq

/-- Python dict assignment `d[k] = v` on an insertion-ordered association
list: overwrite in place when the key exists, append otherwise. -/
def upsert (l : List (String × String)) (k : String) (v : String) :
    List (String × String) :=
  if l.any (fun p => p.1 == k) then l.map (fun p => if p.1 == k then (k, v) else p)
  else l ++ [(k, v)]

/-- `CBTChatbot.get_current_question` (src/models/chatbot.py:138-143).
`.error` models the `KeyError` raised when a condition is set but absent from
the catalog; `.ok none` is the source's `None` (no condition, or step past the
end). -/
def get_current_question (flows : Flows) (st : ChatState) : Except Unit (Option Step) :=
  match st.current_condition with
  | none => .ok none
  | some c =>
    match flows.lookup c with
    | none => .error ()
    | some f =>
      if st.current_step ≥ f.length then .ok none
      else .ok (some (f.getD st.current_step ⟨"", "", ""⟩))

/-- Result of `process_user_response`: the returned triple
`(success, bot_response, session_complete)` together with the state after the
call, or an escaped exception with the state at the raise point. -/
inductive ProcResult where
  | ok (success : Bool) (bot_response : String) (session_complete : Bool) (st : ChatState)
  | exn (st : ChatState)
deriving DecidableEq

/-- The completion prompt appended after the final step
(src/models/chatbot.py:128). -/
def completion_message : String :=
  "You've completed the CBT reflection process! This is a significant accomplishment. Would you like me to generate a journal summary of your session?"

/-- `CBTChatbot.process_user_response` (src/models/chatbot.py:75-136), a pure
state-passing translation: validation first (rejection returns the reason and
leaves every field untouched), then the answer is recorded under the current
question's id, user and bot entries are appended to the transcript, the step
advances, and either the next question or the completion prompt follows.  The
`session_manager.add_response` call touches only the external collaborator. -/
def process_user_response (flows : Flows) (st : ChatState) (user_input : String) :
    ProcResult :=
  if (validate_response user_input).1 = false then
    .ok false ((validate_response user_input).2.getD "") false st
  else
    match get_current_question flows st with
    | .error _ => .exn st
    | .ok none => .ok false "Session error: No current question found." false st
    | .ok (some current_question) =>
      let bot_response := generate_response st.current_personality current_question
        user_input st.current_step
      let st3 : ChatState :=
        { st with
          user_responses := upsert st.user_responses current_question.id user_input,
          conversation_history := st.conversation_history ++
            [⟨"user", user_input, some current_question.id⟩, ⟨"bot", bot_response, none⟩],
          current_step := st.current_step + 1 }
      match st3.current_condition.bind (fun c => flows.lookup c) with
      | none => .exn st3
      | some f =>
        if f.length ≤ st3.current_step then
          .ok true (bot_response ++ "\n\n" ++ completion_message) true
            { st3 with conversation_history := st3.conversation_history ++
                [⟨"bot", completion_message, none⟩] }
        else
          match get_current_question flows st3 with
          | .error _ => .exn st3
          | .ok none => .ok true bot_response false st3
          | .ok (some next_question) =>
            .ok true (bot_response ++ "\n\n" ++ next_question.text) false
              { st3 with conversation_history := st3.conversation_history ++
                  [⟨"bot", next_question.text, none⟩] }

/-- The `introductions` table of `_get_condition_introduction`
(src/models/chatbot.py:66-73). -/
def condition_introductions : List (String × String) :=
  [("stress", "Great choice! Let's explore your stress using the CBT 5-Part Model. We'll examine how your situation, thoughts, emotions, behaviors, and physical reactions are all connected."),
   ("anxiety", "Perfect! We'll examine your anxiety using CBT's comprehensive framework. This will help us understand your fears and develop strategies to manage them effectively."),
   ("lowMood", "Excellent! Let's understand your low mood through the CBT 5-Part Model. We'll explore the connections between your thoughts, feelings, and behaviors to find pathways to feeling better.")]

/-- `CBTChatbot._get_condition_introduction` (src/models/chatbot.py:66-73). -/
def _get_condition_introduction (condition : String) : String :=
  (condition_introductions.lookup condition).getD
    ("Let's begin exploring your " ++ condition ++ " using CBT techniques.")

/-- Result of `start_session`: the returned `(success, message)` pair with the
state after the call, or an escaped exception. -/
inductive StartResult where
  | ok (success : Bool) (msg : String) (st : ChatState)
  | exn (st : ChatState)
deriving DecidableEq

/-- `CBTChatbot.start_session` (src/models/chatbot.py:39-64): unknown
conditions fail without touching the state; otherwise the step resets to 0,
answers and transcript are cleared, and welcome, condition introduction and
first question are appended.  An unknown personality or an empty flow would
raise (`KeyError` in `get_welcome_message`; `None['text']`), modelled by
`.exn`. -/
def start_session (flows : Flows) (st : ChatState) (condition : String) : StartResult :=
  if (flows.lookup condition).isNone then
    .ok false ("Unknown condition: " ++ condition) st
  else
    let st1 : ChatState :=
      { st with
        current_condition := some condition,
        current_step := 0,
        conversation_history := [],
        user_responses := [] }
    match get_welcome_message st1.current_personality with
    | none => .exn st1
    | some welcome_msg =>
      match get_current_question flows st1 with
      | .error _ => .exn st1
      | .ok none => .exn st1
      | .ok (some first_question) =>
        .ok true
          ("Started " ++ condition ++ " session with " ++ st1.current_personality
            ++ " personality")
          { st1 with conversation_history :=
              [⟨"bot", welcome_msg, none⟩,
               ⟨"bot", _get_condition_introduction condition, none⟩,
               ⟨"bot", first_question.text, none⟩] }

/-- The `session_complete` field of `CBTChatbot.get_session_progress`
(src/models/chatbot.py:152-168): `current_step >= total_steps`.  `none` models
the empty progress dictionary returned when no condition is set (and the
`KeyError` of an unknown one). -/
def session_complete (flows : Flows) (st : ChatState) : Option Bool :=
  match st.current_condition with
  | none => none
  | some c => (flows.lookup c).map (fun f => decide (st.current_step ≥ f.length))

/-- The state after a `process_user_response` call, whether it returned or
raised. -/
def stateOf : ProcResult → ChatState
  | .ok _ _ _ st => st
  | .exn st => st

/-- Submit a sequence of answers, one `process_user_response` call each. -/
def runAnswers (flows : Flows) (st : ChatState) (answers : List String) : ChatState :=
  answers.foldl (fun s a => stateOf (process_user_response flows s a)) st

lemma get_current_question_ok_some {flows : Flows} {st : ChatState} {q : Step}
    (h : get_current_question flows st = .ok (some q)) :
    ∃ c f, st.current_condition = some c ∧ flows.lookup c = some f ∧
      st.current_step < f.length ∧ q = f.getD st.current_step ⟨"", "", ""⟩ := by
  unfold get_current_question at h
  split at h
  · exact absurd h (by simp)
  · rename_i c hc
    split at h
    · exact absurd h (by simp)
    · rename_i f hf
      split at h
      · exact absurd h (by simp)
      · rename_i hlen
        simp only [Except.ok.injEq, Option.some.injEq] at h
        exact ⟨c, f, hc, hf, Nat.not_le.mp hlen, h.symm⟩

/-- C4: when the validator rejects the input, `process_user_response` returns
the rejection reason with `success = false` and the state entirely unchanged
(step, answers and transcript all keep their prior values, and no transcript
entry is appended); and in every case the state is either wholly unchanged or
the step and the answers mapping are updated together, atomically, within the
one call (the answer recorded under the current question's id as the step
advances by one). -/
theorem C4_rejection_state_unchanged (flows : Flows) (st : ChatState)
    (user_input : String) :
    ((validate_response user_input).1 = false →
      process_user_response flows st user_input =
        .ok false ((validate_response user_input).2.getD "") false st) ∧
    (stateOf (process_user_response flows st user_input) = st ∨
      ∃ q : Step, get_current_question flows st = .ok (some q) ∧
        (stateOf (process_user_response flows st user_input)).current_step =
          st.current_step + 1 ∧
        (stateOf (process_user_response flows st user_input)).user_responses =
          upsert st.user_responses q.id user_input) := by
  constructor
  · intro hv
    unfold process_user_response
    rw [if_pos hv]
  · by_cases hv : (validate_response user_input).1 = false
    · left
      unfold process_user_response
      rw [if_pos hv]
      rfl
    · cases hq : get_current_question flows st with
      | error e =>
        left
        unfold process_user_response
        rw [if_neg hv, hq]
        rfl
      | ok oq =>
        cases oq with
        | none =>
          left
          unfold process_user_response
          rw [if_neg hv, hq]
          rfl
        | some q =>
          have key :
              (stateOf (process_user_response flows st user_input)).current_step =
                  st.current_step + 1 ∧
                (stateOf (process_user_response flows st user_input)).user_responses =
                  upsert st.user_responses q.id user_input := by
            unfold process_user_response
            rw [if_neg hv, hq]
            dsimp only
            split
            · exact ⟨rfl, rfl⟩
            · split
              · exact ⟨rfl, rfl⟩
              · split
                · exact ⟨rfl, rfl⟩
                · exact ⟨rfl, rfl⟩
                · exact ⟨rfl, rfl⟩
          exact Or.inr ⟨q, rfl, key.1, key.2⟩

lemma nodup_getD_not_mem_take {l : List String} (h : l.Nodup) {k : Nat}
    (hk : k < l.length) (d : String) : l.getD k d ∉ l.take k := by
  intro hmem
  rw [List.getD_eq_getElem l d hk] at hmem
  have hdisj : (l.take k).Disjoint (l.drop k) :=
    (List.nodup_append.mp ((List.take_append_drop k l).symm ▸ h)).2.2
  have hdropmem : l[k] ∈ l.drop k := by
    rw [List.drop_eq_getElem_cons hk]
    exact List.mem_cons_self _ _
  exact hdisj hmem hdropmem

lemma upsert_of_not_mem (l : List (String × String)) (k : String) (v : String)
    (h : k ∉ l.map Prod.fst) : upsert l k v = l ++ [(k, v)] := by
  have hany : (l.any fun p => p.1 == k) = false := by
    rw [List.any_eq_false]
    intro p hp
    simp only [beq_iff_eq]
    intro hpk
    exact h (hpk ▸ List.mem_map_of_mem Prod.fst hp)
  simp [upsert, hany]

lemma process_step (flows : Flows) (c : String) (f : List Step)
    (hf : flows.lookup c = some f) (hnd : (f.map Step.id).Nodup)
    (p : String) (hist : List HistEntry) (prior : List (String × String))
    (k : Nat) (a : String)
    (hk : k < f.length)
    (hprior : prior.map Prod.fst = (f.map Step.id).take k)
    (hv : (validate_response a).1 = true) :
    ∃ resp hist2,
      process_user_response flows ⟨p, some c, k, hist, prior⟩ a =
        .ok true resp (decide (f.length ≤ k + 1))
          ⟨p, some c, k + 1, hist2, prior ++ [((f.getD k ⟨"", "", ""⟩).id, a)]⟩ := by
  have hq : get_current_question flows ⟨p, some c, k, hist, prior⟩ =
      .ok (some (f.getD k ⟨"", "", ""⟩)) := by
    simp only [get_current_question]
    rw [hf]
    dsimp only
    rw [if_neg (Nat.not_le.mpr hk)]
  have hmapk : k < (f.map Step.id).length := by simpa using hk
  have hid_not : (f.getD k ⟨"", "", ""⟩).id ∉ prior.map Prod.fst := by
    rw [hprior]
    have hgd : (f.getD k ⟨"", "", ""⟩).id = (f.map Step.id).getD k "" := by
      rw [List.getD_eq_getElem f _ hk, List.getD_eq_getElem (f.map Step.id) "" hmapk]
      simp
    rw [hgd]
    exact nodup_getD_not_mem_take hnd hmapk ""
  have hup : upsert prior (f.getD k ⟨"", "", ""⟩).id a =
      prior ++ [((f.getD k ⟨"", "", ""⟩).id, a)] :=
    upsert_of_not_mem _ _ _ hid_not
  unfold process_user_response
  rw [if_neg (by simp [hv]), hq]
  dsimp only [Option.bind]
  rw [hf]
  dsimp only
  rw [hup]
  by_cases hcomp : f.length ≤ k + 1
  · rw [if_pos hcomp, decide_eq_true hcomp]
    exact ⟨_, _, rfl⟩
  · rw [if_neg hcomp, decide_eq_false hcomp]
    have hq2 : get_current_question flows
        (⟨p, some c, k + 1,
          hist ++ [⟨"user", a, some (f.getD k ⟨"", "", ""⟩).id⟩,
            ⟨"bot", generate_response p (f.getD k ⟨"", "", ""⟩) a k, none⟩],
          prior ++ [((f.getD k ⟨"", "", ""⟩).id, a)]⟩ : ChatState) =
        .ok (some (f.getD (k + 1) ⟨"", "", ""⟩)) := by
      simp only [get_current_question]
      rw [hf]
      dsimp only
      rw [if_neg (Nat.not_le.mpr (by omega))]
    rw [hq2]
    exact ⟨_, _, rfl⟩

lemma runAnswers_take (flows : Flows) (c : String) (f : List Step)
    (hf : flows.lookup c = some f) (hnd : (f.map Step.id).Nodup)
    (p : String) (hist0 : List HistEntry)
    (answers : List String)
    (hlen : answers.length = f.length)
    (hval : ∀ a ∈ answers, (validate_response a).1 = true) :
    ∀ m, m ≤ answers.length →
      ∃ hist,
        runAnswers flows ⟨p, some c, 0, hist0, []⟩ (answers.take m) =
          ⟨p, some c, m, hist, ((f.map Step.id).take m).zip (answers.take m)⟩ := by
  intro m
  induction m with
  | zero => intro _; exact ⟨hist0, rfl⟩
  | succ m ih =>
    intro hm1
    have hm : m ≤ answers.length := Nat.le_of_succ_le hm1
    obtain ⟨hist, hrun⟩ := ih hm
    have hmlt : m < answers.length := hm1
    have hmltf : m < f.length := by omega
    have hmapm : m < (f.map Step.id).length := by simpa using hmltf
    have htake : answers.take (m + 1) = answers.take m ++ [answers[m]] := by
      rw [List.take_succ, List.getElem?_eq_getElem hmlt]
      rfl
    have hsplit : runAnswers flows ⟨p, some c, 0, hist0, []⟩ (answers.take (m + 1)) =
        stateOf (process_user_response flows
          (runAnswers flows ⟨p, some c, 0, hist0, []⟩ (answers.take m)) answers[m]) := by
      rw [htake]
      unfold runAnswers
      rw [List.foldl_append]
      rfl
    have hprior : (((f.map Step.id).take m).zip (answers.take m)).map Prod.fst =
        (f.map Step.id).take m := by
      apply List.map_fst_zip
      simp only [List.length_take]
      omega
    obtain ⟨resp, hist2, hstep⟩ := process_step flows c f hf hnd p hist
      (((f.map Step.id).take m).zip (answers.take m)) m answers[m] hmltf hprior
      (hval _ (List.getElem_mem hmlt))
    have hz : ((f.map Step.id).take m).zip (answers.take m) ++
          [((f.getD m ⟨"", "", ""⟩).id, answers[m])] =
        ((f.map Step.id).take (m + 1)).zip (answers.take (m + 1)) := by
      have hids : (f.map Step.id).take (m + 1) =
          (f.map Step.id).take m ++ [(f.getD m ⟨"", "", ""⟩).id] := by
        rw [List.take_succ, List.getElem?_eq_getElem hmapm]
        rw [List.getD_eq_getElem f _ hmltf]
        simp
      rw [htake, hids, List.zip_append (by simp only [List.length_take]; omega)]
      rfl
    refine ⟨hist2, ?_⟩
    rw [hsplit, hrun, hstep]
    dsimp only [stateOf]
    rw [hz]

/-- C2: starting a session on any condition of the catalog and then submitting
one validator-accepted answer for every step of that condition's flow, in
order, drives the session to completion after exactly `length(flow)` accepted
submissions: the final step counter equals `length(flow)`,
`get_session_progress` reports the session complete exactly then (and not
after any strict prefix of the submissions), and the answers mapping holds
exactly `length(flow)` entries keyed by every step id of the flow, in flow
order. -/
theorem C2_round_trip (flows : Flows) (st : ChatState) (c : String) (f : List Step)
    (hf : flows.lookup c = some f)
    (hp : st.current_personality ∈ ["neutral", "conscientiousness", "extraversion"])
    (hnd : (f.map Step.id).Nodup)
    (hne : f ≠ [])
    (answers : List String)
    (hlen : answers.length = f.length)
    (hval : ∀ a ∈ answers, (validate_response a).1 = true) :
    ∃ st0,
      start_session flows st c =
        .ok true ("Started " ++ c ++ " session with " ++ st.current_personality
          ++ " personality") st0 ∧
      (runAnswers flows st0 answers).user_responses.map Prod.fst = f.map Step.id ∧
      (runAnswers flows st0 answers).user_responses.length = f.length ∧
      (runAnswers flows st0 answers).current_step = f.length ∧
      session_complete flows (runAnswers flows st0 answers) = some true ∧
      ∀ m, m < answers.length →
        session_complete flows (runAnswers flows st0 (answers.take m)) = some false := by
  have hflen : 0 < f.length := List.length_pos.mpr hne
  obtain ⟨w, hwm⟩ : ∃ w, get_welcome_message st.current_personality = some w := by
    simp only [List.mem_cons, List.not_mem_nil, or_false] at hp
    rcases hp with h | h | h <;> rw [h] <;> exact ⟨_, rfl⟩
  have hstart : start_session flows st c =
      .ok true ("Started " ++ c ++ " session with " ++ st.current_personality
        ++ " personality")
        ⟨st.current_personality, some c, 0,
         [⟨"bot", w, none⟩, ⟨"bot", _get_condition_introduction c, none⟩,
          ⟨"bot", (f.getD 0 ⟨"", "", ""⟩).text, none⟩], []⟩ := by
    unfold start_session
    rw [show (flows.lookup c).isNone = false from by rw [hf]; rfl]
    dsimp only
    rw [hwm]
    have hq0 : get_current_question flows
        (⟨st.current_personality, some c, 0, [], []⟩ : ChatState) =
        .ok (some (f.getD 0 ⟨"", "", ""⟩)) := by
      simp only [get_current_question]
      rw [hf]
      dsimp only
      rw [if_neg (Nat.not_le.mpr hflen)]
    rw [hq0]
    rfl
  set hist0 : List HistEntry :=
    [⟨"bot", w, none⟩, ⟨"bot", _get_condition_introduction c, none⟩,
     ⟨"bot", (f.getD 0 ⟨"", "", ""⟩).text, none⟩] with hh0
  refine ⟨_, hstart, ?_, ?_, ?_, ?_, ?_⟩
  all_goals
    obtain ⟨hist, hrun⟩ := runAnswers_take flows c f hf hnd st.current_personality hist0
      answers hlen hval answers.length (le_refl _)
  · rw [List.take_length] at hrun
    rw [hrun]
    dsimp only
    rw [List.map_fst_zip _ _ (by simp [hlen])]
    rw [show answers.length = (f.map Step.id).length from by simp [hlen], List.take_length]
  · rw [List.take_length] at hrun
    rw [hrun]
    dsimp only
    simp [hlen]
  · rw [List.take_length] at hrun
    rw [hrun]
    dsimp only
    exact hlen
  · rw [List.take_length] at hrun
    rw [hrun]
    simp only [session_complete]
    rw [hf]
    simp [hlen]
  · intro m hm
    obtain ⟨histm, hrunm⟩ := runAnswers_take flows c f hf hnd st.current_personality hist0
      answers hlen hval m (le_of_lt hm)
    rw [hrunm]
    simp only [session_complete]
    rw [hf]
    have hdec : decide (m ≥ f.length) = false := decide_eq_false (by omega)
    simp [hdec]

/-- A concrete validator-accepted answer used by the C2 witness. -/
def witness_answer : String :=
  "I felt anxious because my work deadline slipped and I kept worrying about it."

/-- Witness for C2: a full 35-answer run of the real stress flow from a fresh
neutral-personality state. -/
theorem C2_witness :
    ∃ st0,
      start_session CBT_FLOWS ⟨"neutral", none, 0, [], []⟩ "stress" =
        .ok true ("Started " ++ "stress" ++ " session with " ++ "neutral"
          ++ " personality") st0 ∧
      (runAnswers CBT_FLOWS st0 (List.replicate 35 witness_answer)).user_responses.map
          Prod.fst = stress_flow.map Step.id ∧
      (runAnswers CBT_FLOWS st0 (List.replicate 35 witness_answer)).user_responses.length =
        stress_flow.length ∧
      (runAnswers CBT_FLOWS st0 (List.replicate 35 witness_answer)).current_step =
        stress_flow.length ∧
      session_complete CBT_FLOWS
        (runAnswers CBT_FLOWS st0 (List.replicate 35 witness_answer)) = some true ∧
      ∀ m, m < (List.replicate 35 witness_answer).length →
        session_complete CBT_FLOWS
          (runAnswers CBT_FLOWS st0 ((List.replicate 35 witness_answer).take m)) =
          some false :=
  C2_round_trip CBT_FLOWS ⟨"neutral", none, 0, [], []⟩ "stress" stress_flow rfl
    (by decide) (by decide) (by decide) (List.replicate 35 witness_answer) rfl
    (fun a ha => by rw [List.eq_of_mem_replicate ha]; decide)

/-- One condition's journal template from
`JournalGenerator._load_condition_templates` (src/utils/journal_generator.py:17-71).
The `summary_template` field is carried as in the source, although no code
path reads it (`_generate_summary` uses the three hardcoded summary builders
below instead). -/
structure ConditionTemplate where
  title : String
  intro : String
  summary_template : String

/-- The `stress` journal template (src/utils/journal_generator.py:20-34). -/
def stress_condition_template : ConditionTemplate :=
  ⟨"Stress Management CBT Session",
   "This session explored stress triggers and coping strategies using the CBT 5-Part Model.",
   "You recently experienced a stressful situation involving {situation}, which triggered feelings of {emotions}. At the time, you thought: \"{hot_thought},\" which contributed to your distress. This thought was linked to underlying assumptions and influenced by thinking patterns like {distortions}.\n\nEmotionally, this led to {emotions}, and behaviorally, you responded with {behaviors}. Physically, your body reacted with {physical_symptoms}, highlighting the stress-body connection.\n\nWhen evaluating this thought, you identified both supporting evidence and alternative perspectives, leading to a more compassionate reframe: \"{balanced_thought},\" which you found {believability}% believable. This reframe, if strengthened, could influence your feelings and actions.\n\nA deeper belief surfaced during this process: {deeper_belief}. You identified a new, empowering belief: {new_belief}, supported by personal evidence.\n\nAs a next step, you committed to {action_plan} and identified coping strategies. Recognizing what's within your control enables a shift toward healthier responses.\n\nThis reflection shows that stress is not just about events, but how we interpret and respond to them. You've taken meaningful steps toward breaking the stress cycle."⟩

/-- The `anxiety` journal template (src/utils/journal_generator.py:35-51). -/
def anxiety_condition_template : ConditionTemplate :=
  ⟨"Anxiety Management CBT Session",
   "This session examined anxious thoughts and developed confidence-building strategies.",
   "You experienced anxiety related to {situation}, with the core fear being {fear}. Your most distressing thought was: \"{hot_thought},\" which predicted {predictions}.\n\nThis anxiety manifested emotionally as {emotions} (rated {intensity}/100), led to behaviors like {behaviors}, and created physical symptoms including {physical_symptoms}.\n\nThrough evidence examination, you discovered that {evidence_against} contradicted your anxious predictions, while the actual supporting evidence was {evidence_for}. This led to a more balanced perspective: \"{balanced_thought},\" which you believe {belief_rating}% right now.\n\nYou identified safety behaviors like {safety_behaviors} that, while providing short-term relief, may maintain anxiety long-term. As an alternative, you planned to {small_step} to gradually face your fears.\n\nA deeper belief contributing to your anxiety was: {deeper_belief}. You're working toward a new, empowering belief: \"{new_belief},\" supported by evidence from your life experiences.\n\nKey learning: {key_learning}. Your commitment for this week: {weekly_action}.\n\nRemember: anxiety often involves overestimating danger and underestimating your ability to cope. You have more resilience than your anxious mind suggests."⟩

/-- The `lowMood` journal template (src/utils/journal_generator.py:52-70). -/
def lowMood_condition_template : ConditionTemplate :=
  ⟨"Low Mood Recovery CBT Session",
   "This session addressed negative thoughts and focused on rebuilding positive momentum.",
   "Your low mood was triggered by {trigger}, leading to the painful thought: \"{hot_thought}.\" This thought meant {meaning} to you about yourself, your life, or your future.\n\nEmotionally, you experienced {emotions} (rated {mood_rating}/100). Behaviorally, you {behaviors}, which may have included withdrawal or reduced activity. Physically, you noticed {physical_symptoms}.\n\nYou identified negative beliefs about yourself: {negative_beliefs}, and recognized thinking errors like {thinking_errors}. Through evidence examination, you found that {evidence_against} contradicted your harsh self-judgments, while actual supporting evidence was {evidence_for}.\n\nThis led to a more balanced, compassionate perspective: \"{balanced_perspective},\" which you believe {belief_strength}% currently.\n\nFor behavioral activation, you identified that {positive_activities} gave you some sense of pleasure, accomplishment, or connection. Tomorrow, you plan to {tomorrow_activity}, anticipating obstacles like {obstacles}.\n\nA core belief contributing to your low mood was: {deep_belief}. You're developing a healthier belief: \"{new_belief},\" supported by evidence like {evidence_list}.\n\nYour 24-hour commitment: {next_24_hours}. Support available: {support}. Future reminder: {future_reminder}.\n\nRemember: depression often involves a harsh inner critic. You've shown courage by challenging these thoughts and taking steps toward self-compassion and renewed activity."⟩

/-- `JournalGenerator.condition_templates` (src/utils/journal_generator.py:14-71). -/
def condition_templates : List (String × ConditionTemplate) :=
  [("stress", stress_condition_template),
   ("anxiety", anxiety_condition_template),
   ("lowMood", lowMood_condition_template)]

/-- ASCII model of Python upper-casing, character by character (used only by
`str.title` in the header's fallback branch). -/
def asciiUpper (c : Char) : Char :=
  match c with
  | 'a' => 'A' | 'b' => 'B' | 'c' => 'C' | 'd' => 'D' | 'e' => 'E' | 'f' => 'F'
  | 'g' => 'G' | 'h' => 'H' | 'i' => 'I' | 'j' => 'J' | 'k' => 'K' | 'l' => 'L'
  | 'm' => 'M' | 'n' => 'N' | 'o' => 'O' | 'p' => 'P' | 'q' => 'Q' | 'r' => 'R'
  | 's' => 'S' | 't' => 'T' | 'u' => 'U' | 'v' => 'V' | 'w' => 'W' | 'x' => 'X'
  | 'y' => 'Y' | 'z' => 'Z'
  | other => other

/-- ASCII model of Python `str.title`: upper-case a letter that follows a
non-letter, lower-case the other letters. -/
def pyTitleAux (prevAlpha : Bool) : List Char → List Char
  | [] => []
  | c :: cs =>
    (if c.isAlpha then (if prevAlpha then asciiLower c else asciiUpper c) else c) ::
      pyTitleAux c.isAlpha cs

/-- Python `s.title()`. -/
def pyTitle (s : String) : String := ⟨pyTitleAux false s.data⟩

/-- The journal's condition display names (src/utils/journal_generator.py:89-93). -/
def condition_names_journal : List (String × String) :=
  [("stress", "Stress"), ("anxiety", "Anxiety"), ("lowMood", "Low Mood")]

/-- The journal's personality display names (src/utils/journal_generator.py:95-99). -/
def personality_names_journal : List (String × String) :=
  [("neutral", "Neutral"), ("conscientiousness", "High Conscientiousness"),
   ("extraversion", "High Extraversion")]

/-- `JournalGenerator._generate_header` (src/utils/journal_generator.py:87-117).
`datetime.now().strftime('%B %d, %Y at %I:%M %p')` is the parameter
`nowLong`. -/
def _generate_header (condition personality : String) (template : ConditionTemplate)
    (nowLong : String) : String :=
  "# " ++ template.title ++ "\n\n**Session Date:** " ++ nowLong
    ++ "\n**Condition Focus:** "
    ++ (condition_names_journal.lookup condition).getD (pyTitle condition)
    ++ "\n**Chatbot Personality:** "
    ++ (personality_names_journal.lookup personality).getD (pyTitle personality)
    ++ "\n**Session Type:** Cognitive Behavioral Therapy (CBT) Journaling\n\n---\n\n"
    ++ "## Session Overview\n\n" ++ template.intro ++ "\n\n---\n\n"

/-- Append an answered question under its category, preserving the insertion
order of first appearance (Python's `defaultdict(list)` over an insertion-
ordered dict). -/
def groupAppend (acc : List (String × List (String × String))) (cat : String)
    (item : String × String) : List (String × List (String × String)) :=
  if acc.any (fun p => p.1 == cat) then
    acc.map (fun p => if p.1 == cat then (p.1, p.2 ++ [item]) else p)
  else acc ++ [(cat, item :: [])]

/-- The `categories` grouping of `_generate_sections`
(src/utils/journal_generator.py:124-131): every answered question of the flow,
in flow order, grouped by category; each item keeps `(question text, answer)`
(the item's `id` field is never read when the sections are emitted). -/
def categoriesOf (questions : List Step) (responses : List (String × String)) :
    List (String × List (String × String)) :=
  questions.foldl
    (fun acc q =>
      match responses.lookup q.id with
      | none => acc
      | some answer => groupAppend acc q.category (q.text, answer))
    []

/-- The section text emitted by `_generate_sections` for a given flow: one
`##` subsection per category with its question/answer pairs and a rule. -/
def sections_text (questions : List Step) (responses : List (String × String)) : String :=
  (categoriesOf questions responses).foldl
    (fun acc entry =>
      acc ++ "## " ++ entry.1 ++ "\n\n"
        ++ entry.2.foldl
            (fun a it => a ++ "**Q:** " ++ it.1 ++ "\n\n**A:** " ++ it.2 ++ "\n\n") ""
        ++ "---\n\n")
    ""

/-- `JournalGenerator._generate_sections` (src/utils/journal_generator.py:119-144).
`none` models the `KeyError` on a condition absent from the catalog. -/
def _generate_sections (flows : Flows) (condition : String)
    (responses : List (String × String)) : Option String :=
  (flows.lookup condition).map (fun questions => sections_text questions responses)

/-- `JournalGenerator._extract_key_responses` (src/utils/journal_generator.py:164-201):
the per-condition key list with its fixed generic placeholder for every absent
answer; unknown conditions yield the empty mapping. -/
def _extract_key_responses (condition : String) (responses : List (String × String)) :
    List (String × String) :=
  if condition = "stress" then
    [("situation", (responses.lookup "situation").getD "a challenging situation"),
     ("hot_thought", (responses.lookup "hot_thought").getD "a distressing thought"),
     ("emotions", (responses.lookup "emotions").getD "difficult emotions"),
     ("behaviors", (responses.lookup "behaviors").getD "stress responses"),
     ("physical", (responses.lookup "physical").getD "physical symptoms"),
     ("balanced_thought",
      (responses.lookup "balanced_thought").getD "a more balanced perspective"),
     ("new_belief", (responses.lookup "new_belief").getD "a healthier belief"),
     ("helpful_action", (responses.lookup "helpful_action").getD "positive action steps")]
  else if condition = "anxiety" then
    [("situation", (responses.lookup "situation").getD "an anxiety-provoking situation"),
     ("hot_thought", (responses.lookup "hot_thought").getD "an anxious thought"),
     ("fear", (responses.lookup "fear").getD "a specific fear"),
     ("emotions", (responses.lookup "emotions").getD "anxious feelings"),
     ("behaviors", (responses.lookup "behaviors").getD "anxiety responses"),
     ("physical", (responses.lookup "physical").getD "physical anxiety symptoms"),
     ("balanced_thought",
      (responses.lookup "balanced_thought").getD "a more realistic perspective"),
     ("new_belief", (responses.lookup "new_belief").getD "an empowering belief"),
     ("small_step", (responses.lookup "small_step").getD "a gradual exposure step")]
  else if condition = "lowMood" then
    [("trigger", (responses.lookup "trigger").getD "a mood trigger"),
     ("hot_thought", (responses.lookup "hot_thought").getD "a painful thought"),
     ("emotions", (responses.lookup "emotions").getD "low mood feelings"),
     ("behaviors", (responses.lookup "behaviors").getD "mood-related behaviors"),
     ("physical", (responses.lookup "physical").getD "physical symptoms"),
     ("balanced_perspective",
      (responses.lookup "balanced_perspective").getD "a compassionate perspective"),
     ("new_belief", (responses.lookup "new_belief").getD "a healthier self-belief"),
     ("tomorrow_activity",
      (responses.lookup "tomorrow_activity").getD "a mood-lifting activity")]
  else []

/-- `JournalGenerator._create_stress_summary` (src/utils/journal_generator.py:203-211).
The `key_responses[...]` indexings are total at every call site (the key list
always carries these keys); `getD ""` stands for them. -/
def _create_stress_summary (key_responses : List (String × String)) : String :=
  let g := fun k => (key_responses.lookup k).getD ""
  "Through this CBT exploration, you examined a stressful experience involving **"
    ++ g "situation" ++ "**. Your most distressing thought was: *\"" ++ g "hot_thought"
    ++ "\"*, which contributed to feelings of **" ++ g "emotions"
    ++ "** and led to behaviors such as **" ++ g "behaviors"
    ++ "**.\n\nPhysically, you experienced **" ++ g "physical"
    ++ "**, demonstrating the mind-body connection in stress responses.\n\n"
    ++ "By examining the evidence and challenging unhelpful thinking patterns, you developed a more balanced perspective: *\""
    ++ g "balanced_thought" ++ "\"*. You also identified a new, empowering belief: *\""
    ++ g "new_belief" ++ "\"* and committed to taking action through **"
    ++ g "helpful_action"
    ++ "**.\n\nThis reflection demonstrates that stress involves not just external events, but how we interpret and respond to them. You've gained valuable insights for managing future stressful situations more effectively."

/-- `JournalGenerator._create_anxiety_summary` (src/utils/journal_generator.py:213-221). -/
def _create_anxiety_summary (key_responses : List (String × String)) : String :=
  let g := fun k => (key_responses.lookup k).getD ""
  "This session explored your anxiety around **" ++ g "situation"
    ++ "**, with your core fear being **" ++ g "fear"
    ++ "**. Your most distressing thought was: *\"" ++ g "hot_thought"
    ++ "\"*, which triggered **" ++ g "emotions" ++ "** and led to behaviors like **"
    ++ g "behaviors" ++ "**.\n\nYou experienced physical symptoms including **"
    ++ g "physical"
    ++ "**, highlighting anxiety's impact on the body.\n\nThrough evidence examination, you developed a more balanced perspective: *\""
    ++ g "balanced_thought" ++ "\"*. You're working toward the empowering belief that *\""
    ++ g "new_belief" ++ "\"* and have committed to taking a small step forward: **"
    ++ g "small_step"
    ++ "**.\n\nThis process reveals that anxiety often involves overestimating danger while underestimating your coping abilities. You have more resilience and capability than your anxious mind suggests."

/-- `JournalGenerator._create_low_mood_summary` (src/utils/journal_generator.py:223-231). -/
def _create_low_mood_summary (key_responses : List (String × String)) : String :=
  let g := fun k => (key_responses.lookup k).getD ""
  "Your low mood was triggered by **" ++ g "trigger"
    ++ "**, leading to the painful thought: *\"" ++ g "hot_thought"
    ++ "\"*. This contributed to feelings of **" ++ g "emotions"
    ++ "** and behaviors such as **" ++ g "behaviors"
    ++ "**.\n\nYou also noticed physical symptoms like **" ++ g "physical"
    ++ "**, showing how mood affects the entire body.\n\nThrough compassionate self-examination, you developed a more balanced perspective: *\""
    ++ g "balanced_perspective" ++ "\"*. You're cultivating the healthier belief that *\""
    ++ g "new_belief" ++ "\"* and have planned to engage in **" ++ g "tomorrow_activity"
    ++ "** to support your mood.\n\nThis reflection shows that depression often involves a harsh inner critic. By challenging these thoughts and planning positive activities, you're taking meaningful steps toward self-compassion and recovery."

/-- `JournalGenerator._generate_summary` (src/utils/journal_generator.py:146-162):
the `## Session Summary` heading, the condition-specific summary filled from
`_extract_key_responses` (nothing for an unknown condition), and a rule. -/
def _generate_summary (condition : String) (responses : List (String × String)) : String :=
  "## Session Summary\n\n"
    ++ (let key_responses := _extract_key_responses condition responses
        if condition = "stress" then _create_stress_summary key_responses
        else if condition = "anxiety" then _create_anxiety_summary key_responses
        else if condition = "lowMood" then _create_low_mood_summary key_responses
        else "")
    ++ "\n---\n\n"

/-- The fixed prose of `_generate_reflection_section`
(src/utils/journal_generator.py:236-254). -/
def reflection_fixed_prose : String :=
  "## Key Insights and Reflections\n\nThrough this CBT journaling process, several important patterns and insights emerged:\n\n### Thought-Emotion-Behavior Connection\nThis session highlighted the interconnected nature of thoughts, emotions, and behaviors. By identifying and examining automatic thoughts, you gained awareness of how cognitive patterns influence your emotional and behavioral responses.\n\n### Evidence-Based Thinking\nYou practiced evaluating thoughts objectively, considering both supporting and contradicting evidence. This skill helps develop more balanced, realistic perspectives rather than accepting thoughts at face value.\n\n### Cognitive Restructuring\nYou successfully challenged unhelpful thinking patterns and developed more adaptive, compassionate ways of viewing yourself and your situation.\n\n### Actionable Insights\nYou identified concrete steps you can take to apply these insights in daily life, moving from reflection to practical implementation.\n\n---\n\n"

/-- `JournalGenerator._generate_reflection_section`
(src/utils/journal_generator.py:233-266): fixed prose, a quoted new-belief
block when that key exists, and a committed-action block using the first key
present among `helpful_action`, `small_step`, `tomorrow_activity`. -/
def _generate_reflection_section (responses : List (String × String)) : String :=
  reflection_fixed_prose
    ++ (match responses.lookup "new_belief" with
        | some nb =>
          "### New Empowering Belief\n*\"" ++ nb
            ++ "\"*\n\nThis new belief represents a significant shift toward self-compassion and realistic self-assessment.\n\n"
        | none => "")
    ++ (match ["helpful_action", "small_step", "tomorrow_activity"].find?
          (fun k => (responses.lookup k).isSome) with
        | some action_key =>
          "### Committed Action\n**" ++ (responses.lookup action_key).getD ""
            ++ "**\n\nThis commitment represents your intention to translate insights into meaningful behavioral change.\n\n"
        | none => "")
    ++ "---\n\n"

/-- The `footer_messages` table (src/utils/journal_generator.py:271-277). -/
def footer_messages : List (String × String) :=
  [("neutral", "Remember that CBT is a process of ongoing practice. The insights gained today provide a foundation for continued growth and self-understanding."),
   ("conscientiousness", "Your systematic approach to this CBT process demonstrates excellent commitment to personal development. Consistent application of these evidence-based techniques will yield significant long-term benefits for your mental health and wellbeing."),
   ("extraversion", "What an amazing journey of self-discovery you've completed today! Your openness and courage in exploring these thoughts and feelings is truly inspiring. Remember, every small step counts, and you're building something really meaningful for your mental health! ðŸŒŸ")]

/-- `JournalGenerator._generate_footer` (src/utils/journal_generator.py:268-299).
`datetime.now().strftime('%B %d, %Y')` is the parameter `nowShort`. -/
def _generate_footer (personality : String) (nowShort : String) : String :=
  "## Final Reflection\n\n"
    ++ (footer_messages.lookup personality).getD
        ((footer_messages.lookup "neutral").getD "")
    ++ "\n\n### Next Steps\n1. **Review** this journal entry regularly to reinforce insights\n2. **Practice** the balanced thoughts and coping strategies identified\n3. **Implement** the action steps you've committed to\n4. **Monitor** your progress and celebrate small wins\n5. **Return** to these techniques when facing similar challenges\n\n### Session Completion\n**Date:** "
    ++ nowShort
    ++ "\n**Duration:** CBT Therapeutic Writing Session\n**Focus:** Cognitive restructuring and insight development\n\n---\n\n*This journal entry was generated from your CBT session responses and serves as a personal reference for ongoing mental health support. Keep this record for future reflection and progress tracking.*"

/-- `JournalGenerator.create_journal` (src/utils/journal_generator.py:73-85):
header, per-category sections, narrative summary, reflection and footer
concatenated; `none` models the `KeyError` that `_generate_sections` raises
for a condition not in the catalog. -/
def create_journal (flows : Flows) (condition personality : String)
    (responses : List (String × String)) (nowLong nowShort : String) : Option String :=
  let template := (condition_templates.lookup condition).getD stress_condition_template
  (_generate_sections flows condition responses).map (fun sections =>
    _generate_header condition personality template nowLong
      ++ sections
      ++ _generate_summary condition responses
      ++ _generate_reflection_section responses
      ++ _generate_footer personality nowShort)

lemma prefix_data_left {n : List Char} {a : String} (b : String) (h : n <+: a.data) :
    n <+: (a ++ b).data := by
  rw [String.data_append]
  exact h.trans (List.prefix_append _ _)

lemma infix_data_left {n : List Char} {a : String} (b : String) (h : n <:+: a.data) :
    n <:+: (a ++ b).data := by
  rw [String.data_append]
  exact h.trans ((List.prefix_append _ _).isInfix)

lemma infix_data_right {n : List Char} (a : String) {b : String} (h : n <:+: b.data) :
    n <:+: (a ++ b).data := by
  rw [String.data_append]
  exact h.trans ((List.suffix_append _ _).isInfix)

lemma ne_nil_of_infix {n l : List Char} (h : n <:+: l) (hn : n ≠ []) : l ≠ [] := by
  intro hl
  subst hl
  exact hn (List.sublist_nil.mp h.sublist)

set_option maxRecDepth 100000 in
/-- C5: rendering a journal for condition `stress` and personality `neutral`
never raises for any answers mapping (the render is `some` document), the
document is non-empty and carries its header, session-summary and
final-reflection parts; and from the empty answers mapping the document
contains the fixed generic placeholder "a challenging situation" (the
`situation` key being absent). -/
theorem C5_journal_render (responses : List (String × String))
    (nowLong nowShort : String) :
    (∃ j : String,
      create_journal CBT_FLOWS "stress" "neutral" responses nowLong nowShort = some j ∧
      j.data ≠ [] ∧
      "# Stress Management CBT Session".data <:+: j.data ∧
      "## Session Summary".data <:+: j.data ∧
      "## Final Reflection".data <:+: j.data) ∧
    ∃ j0 : String,
      create_journal CBT_FLOWS "stress" "neutral" [] nowLong nowShort = some j0 ∧
      "a challenging situation".data <:+: j0.data := by
  constructor
  · set J := _generate_header "stress" "neutral"
        ((condition_templates.lookup "stress").getD stress_condition_template) nowLong
      ++ sections_text stress_flow responses
      ++ _generate_summary "stress" responses
      ++ _generate_reflection_section responses
      ++ _generate_footer "neutral" nowShort with hJ
    have hpre1 : "# Stress Management CBT Session".data <+: J.data := by
      rw [hJ]
      apply prefix_data_left
      apply prefix_data_left
      apply prefix_data_left
      apply prefix_data_left
      simp only [_generate_header]
      apply prefix_data_left
      apply prefix_data_left
      apply prefix_data_left
      apply prefix_data_left
      apply prefix_data_left
      apply prefix_data_left
      apply prefix_data_left
      apply prefix_data_left
      apply prefix_data_left
      apply prefix_data_left
      decide
    have hsum : "## Session Summary".data <:+: J.data := by
      rw [hJ]
      apply infix_data_left
      apply infix_data_left
      apply infix_data_right
      apply List.IsPrefix.isInfix
      simp only [_generate_summary]
      apply prefix_data_left
      apply prefix_data_left
      decide
    have hrefl : "## Final Reflection".data <:+: J.data := by
      rw [hJ]
      apply infix_data_right
      apply List.IsPrefix.isInfix
      simp only [_generate_footer]
      apply prefix_data_left
      apply prefix_data_left
      apply prefix_data_left
      decide
    refine ⟨J, ?_, ne_nil_of_infix hpre1.isInfix (by decide), hpre1.isInfix, hsum, hrefl⟩
    rw [hJ]
    rfl
  · set J0 := _generate_header "stress" "neutral"
        ((condition_templates.lookup "stress").getD stress_condition_template) nowLong
      ++ sections_text stress_flow []
      ++ _generate_summary "stress" []
      ++ _generate_reflection_section []
      ++ _generate_footer "neutral" nowShort with hJ0
    have hplace : "a challenging situation".data <:+: J0.data := by
      rw [hJ0]
      apply infix_data_left
      apply infix_data_left
      apply infix_data_right
      decide
    refine ⟨J0, ?_, hplace⟩
    rw [hJ0]
    rfl
